import Mathlib

/-!
Verification development for the TikZ parsing and geometric-relationship
engine of `src/tikz_helper.py`.

The Python source is shallowly embedded here:

* strings are processed as `List Char`;
* Python `float` values produced by decimal parsing are modelled as exact
  rationals `ℚ`; distances, angles and trigonometry computed by the source
  with `math.sqrt` / `math.atan2` / `math.cos` / `math.sin` live in `ℝ`;
* a Python function that can raise `ValueError` is embedded as a function
  into `Except Unit _`, with `.error ()` standing for the raised exception;
* Python regular expressions are embedded through a small backtracking
  regex engine (`RE` / `mrun`) whose candidate order mirrors the leftmost,
  greedy, backtracking semantics of Python's `re` module for the pattern
  features the source uses (literals, character classes, `*`/`+` over a
  character class, optional groups, alternation of literals, anchors).
-/

/- The Batteries rational-number operations are `@[irreducible]`, which
blocks definitional evaluation of the embedded parsers on concrete inputs;
restore the default reducibility for this file. -/
attribute [local semireducible] Rat.add Rat.mul Rat.inv Rat.sub

/-- Decidable equality of embedded results (`Except` does not derive it). -/
instance {ε α : Type} [DecidableEq ε] [DecidableEq α] : DecidableEq (Except ε α) := fun a b =>
  match a, b with
  | .error e, .error f => if h : e = f then .isTrue (by rw [h]) else .isFalse (by simp [h])
  | .ok x, .ok y => if h : x = y then .isTrue (by rw [h]) else .isFalse (by simp [h])
  | .error _, .ok _ => .isFalse (by simp)
  | .ok _, .error _ => .isFalse (by simp)

namespace TikzHelper

/-- Python ASCII whitespace, used by `\s` in patterns and by `str.strip`. -/
def isSpaceChar (c : Char) : Bool :=
  c = ' ' || c = '\t' || c = '\n' || c = '\r' || c = Char.ofNat 11 || c = Char.ofNat 12

/-- Python `str.strip()`. -/
def pyStrip (s : List Char) : List Char :=
  ((s.dropWhile isSpaceChar).reverse.dropWhile isSpaceChar).reverse

/-- Python `str.lower()` (ASCII fragment). -/
def toLowerList (s : List Char) : List Char := s.map Char.toLower

/-- Python `t in s` substring test. -/
def containsSub (s t : List Char) : Bool :=
  (List.range (s.length + 1)).any (fun i => t.isPrefixOf (s.drop i))

/-- Digit list to natural number value. -/
def digitsToNat (l : List Char) : ℕ :=
  l.foldl (fun a c => a * 10 + (c.toNat - 48)) 0

/--
Python `float(s)` restricted to the strings reachable from the source's
character classes (`[\d.]`, `[-\d.]`): an optional leading minus sign,
then digits with at most one decimal point and at least one digit.
Returns `none` exactly when Python's `float` raises `ValueError` on such a
string (`".."`, `"1.2.3"`, `"-"`, `"1-2"`, ...).
-/
def parseUnsignedQ (l : List Char) : Option ℚ :=
  let intPart := l.takeWhile Char.isDigit
  let rest := l.drop intPart.length
  match rest with
  | [] => if intPart.isEmpty then none else some (digitsToNat intPart)
  | '.' :: frac =>
      if frac.all Char.isDigit && !(intPart.isEmpty && frac.isEmpty) then
        some ((digitsToNat intPart : ℚ) + (digitsToNat frac : ℚ) / 10 ^ frac.length)
      else none
  | _ => none

/-- Python `float(s)` on a token (see `parseUnsignedQ`). -/
def parseFloatQ (l : List Char) : Option ℚ :=
  match l with
  | '-' :: rest => (parseUnsignedQ rest).map Neg.neg
  | _ => parseUnsignedQ l

/-! ## A small regex engine with Python backtracking order -/

/-- Captured groups: group number paired with the captured characters. -/
abbrev Caps := List (ℕ × List Char)

/-- Regex abstract syntax for the pattern features used by the source. -/
inductive RE where
  | lit : List Char → RE
  | cls : (Char → Bool) → RE
  | seq : RE → RE → RE
  | alt : RE → RE → RE
  | opt : RE → RE
  | starCls : (Char → Bool) → RE
  | plusCls : (Char → Bool) → RE
  | grp : ℕ → RE → RE
  | eos : RE

/-- One match candidate: the captures made and the remaining input. -/
structure MRes where
  caps : Caps
  rest : List Char
  deriving DecidableEq, Repr

/--
All match candidates of a regex at the start of `s`, in Python's
backtracking priority order (greedy repetitions try the longest
consumption first; alternation tries the left branch first; an optional
part tries to be present first).  Python's `re.match` result is the head
of this list.
-/
def mrun : RE → List Char → List MRes
  | .lit t, s => if t.isPrefixOf s then [⟨[], s.drop t.length⟩] else []
  | .cls p, s =>
      match s with
      | c :: r => if p c then [⟨[], r⟩] else []
      | [] => []
  | .seq a b, s =>
      (mrun a s).flatMap fun m1 =>
        (mrun b m1.rest).map fun m2 => ⟨m1.caps ++ m2.caps, m2.rest⟩
  | .alt a b, s => mrun a s ++ mrun b s
  | .opt a, s => mrun a s ++ [⟨[], s⟩]
  | .starCls p, s =>
      let k := (s.takeWhile p).length
      (List.range (k + 1)).map fun i => ⟨[], s.drop (k - i)⟩
  | .plusCls p, s =>
      let k := (s.takeWhile p).length
      (List.range k).map fun i => ⟨[], s.drop (k - i)⟩
  | .grp n a, s =>
      (mrun a s).map fun m => ⟨m.caps ++ [(n, s.take (s.length - m.rest.length))], m.rest⟩
  | .eos, s => if s.isEmpty then [⟨[], s⟩] else []

/-- Python `re.match`: anchored at the start, first candidate wins. -/
def firstMatch (r : RE) (s : List Char) : Option MRes :=
  (mrun r s).head?

/-- Python `re.search`: try each start position from the left. -/
def searchPos (r : RE) : List Char → Option MRes
  | [] => firstMatch r []
  | s@(_ :: t) =>
      match firstMatch r s with
      | some m => some m
      | none => searchPos r t

/-- Worker for `finditer`, fuelled by the input length. -/
def finditerAux (r : RE) : ℕ → List Char → List Caps
  | 0, _ => []
  | fuel + 1, s =>
      match firstMatch r s with
      | some m =>
          if m.rest.length < s.length then m.caps :: finditerAux r fuel m.rest
          else m.caps :: finditerAux r fuel (s.drop 1)
      | none =>
          match s with
          | [] => []
          | _ :: t => finditerAux r fuel t

/-- Python `re.finditer`: non-overlapping leftmost matches, left to right. -/
def finditer (r : RE) (s : List Char) : List Caps :=
  finditerAux r (s.length + 1) s

/-- Python `match.group(n)` (for our patterns each group occurs at most once). -/
def capGet (caps : Caps) (n : ℕ) : Option (List Char) :=
  (caps.find? (fun p => p.1 == n)).map (·.2)

/-! ## Character classes and the concrete patterns of `tikz_helper.py` -/

/-- The class `[\d.]`. -/
def isDigitDot (c : Char) : Bool := c.isDigit || c = '.'

/-- The class `[-\d.]` (and `[\d.-]`). -/
def isNumTok (c : Char) : Bool := c.isDigit || c = '.' || c = '-'

/-- The class `[^)]`. -/
def notRparen (c : Char) : Bool := c != ')'

/-- The class `[^\]]`. -/
def notRbrack (c : Char) : Bool := c != ']'

/-- The class `[^;]`. -/
def notSemi (c : Char) : Bool := c != ';'

/-- Left and right brace characters. -/
def lbrace : Char := Char.ofNat 123

def rbrace : Char := Char.ofNat 125

/-- The class `[^}]`. -/
def notRbrace (c : Char) : Bool := c != rbrace

/-- Sequence a list of regexes. -/
def reSeq (l : List RE) : RE := l.foldr RE.seq (RE.lit [])

/-- A literal regex from a string. -/
def litS (s : String) : RE := RE.lit s.data

/-- `\s*`. -/
def s0 : RE := RE.starCls isSpaceChar

/-- `^([-\d.]+)\s*,\s*([-\d.]+)$` from `parse_coordinate`. -/
def numPairRE : RE :=
  reSeq [RE.grp 1 (RE.plusCls isNumTok), s0, litS ",", s0,
         RE.grp 2 (RE.plusCls isNumTok), RE.eos]

/-- `(cm|pt|mm)`. -/
def unitAltCmPtMm : RE := RE.alt (litS "cm") (RE.alt (litS "pt") (litS "mm"))

/-- `(pt|cm|mm)`. -/
def unitAltPtCmMm : RE := RE.alt (litS "pt") (RE.alt (litS "cm") (litS "mm"))

/-- `^([\d.]+)\s*(cm|pt|mm)?$` from `parse_radius` and the arc radius parse. -/
def radiusRE : RE :=
  reSeq [RE.grp 1 (RE.plusCls isDigitDot), s0, RE.opt (RE.grp 2 unitAltCmPtMm), RE.eos]

/-- `^([\d.]+)\s*(pt|cm|mm)?$` from the point-size parse. -/
def sizeRE : RE :=
  reSeq [RE.grp 1 (RE.plusCls isDigitDot), s0, RE.opt (RE.grp 2 unitAltPtCmMm), RE.eos]

/-- `\\begin\{tikzpicture\}\s*\[\s*[^\]]*scale\s*=\s*([\d.]+)` from `parse_tikz_scale`. -/
def scaleRE : RE :=
  reSeq [litS "\\begin", RE.lit [lbrace], litS "tikzpicture", RE.lit [rbrace], s0,
         litS "[", s0, RE.starCls notRbrack, litS "scale", s0, litS "=", s0,
         RE.grp 1 (RE.plusCls isDigitDot)]

/-- `\\coordinate\s*\(([^)]+)\)\s*at\s*\(([^)]+)\)\s*;`. -/
def coordDecl1RE : RE :=
  reSeq [litS "\\coordinate", s0, litS "(", RE.grp 1 (RE.plusCls notRparen), litS ")",
         s0, litS "at", s0, litS "(", RE.grp 2 (RE.plusCls notRparen), litS ")", s0, litS ";"]

/-- `\\coordinate\s*\[[^\]]*\]\s*\(([^)]+)\)\s*at\s*\(([^)]+)\)\s*;`. -/
def coordDecl2RE : RE :=
  reSeq [litS "\\coordinate", s0, litS "[", RE.starCls notRbrack, litS "]", s0,
         litS "(", RE.grp 1 (RE.plusCls notRparen), litS ")",
         s0, litS "at", s0, litS "(", RE.grp 2 (RE.plusCls notRparen), litS ")", s0, litS ";"]

/-- `\\node\s*\(([^)]+)\)\s*at\s*\(([^)]+)\)`. -/
def nodeDecl1RE : RE :=
  reSeq [litS "\\node", s0, litS "(", RE.grp 1 (RE.plusCls notRparen), litS ")",
         s0, litS "at", s0, litS "(", RE.grp 2 (RE.plusCls notRparen), litS ")"]

/-- `\\node\s*\[[^\]]*\]\s*\(([^)]+)\)\s*at\s*\(([^)]+)\)`. -/
def nodeDecl2RE : RE :=
  reSeq [litS "\\node", s0, litS "[", RE.starCls notRbrack, litS "]", s0,
         litS "(", RE.grp 1 (RE.plusCls notRparen), litS ")",
         s0, litS "at", s0, litS "(", RE.grp 2 (RE.plusCls notRparen), litS ")"]

/-- `\\def\\([a-zA-Z]+)\{([^}]+)\}`. -/
def defMacroRE : RE :=
  reSeq [litS "\\def\\", RE.grp 1 (RE.plusCls Char.isAlpha), RE.lit [lbrace],
         RE.grp 2 (RE.plusCls notRbrace), RE.lit [rbrace]]

/-- `\\newcommand\{\\([a-zA-Z]+)\}\{([^}]+)\}`. -/
def newcommandRE : RE :=
  reSeq [litS "\\newcommand", RE.lit [lbrace], litS "\\",
         RE.grp 1 (RE.plusCls Char.isAlpha), RE.lit [rbrace], RE.lit [lbrace],
         RE.grp 2 (RE.plusCls notRbrace), RE.lit [rbrace]]

/-- `\\draw[^;]*\(([^)]+)\)\s*circle\s*\(([^)]+)\)` from the circle extraction. -/
def circleRE : RE :=
  reSeq [litS "\\draw", RE.starCls notSemi, litS "(", RE.grp 1 (RE.plusCls notRparen),
         litS ")", s0, litS "circle", s0, litS "(", RE.grp 2 (RE.plusCls notRparen), litS ")"]

/-- `\(([^)]+)\)` from the per-statement token extraction for lines. -/
def parenTokRE : RE :=
  reSeq [litS "(", RE.grp 1 (RE.plusCls notRparen), litS ")"]

/-- `\\fill[^;]*\(([^)]+)\)\s*circle\s*\(([^)]+)\)` from the point extraction. -/
def fillPointRE : RE :=
  reSeq [litS "\\fill", RE.starCls notSemi, litS "(", RE.grp 1 (RE.plusCls notRparen),
         litS ")", s0, litS "circle", s0, litS "(", RE.grp 2 (RE.plusCls notRparen), litS ")"]

/-- `\\filldraw[^;]*\(([^)]+)\)\s*circle\s*\(([^)]+)\)`. -/
def filldrawPointRE : RE :=
  reSeq [litS "\\filldraw", RE.starCls notSemi, litS "(", RE.grp 1 (RE.plusCls notRparen),
         litS ")", s0, litS "circle", s0, litS "(", RE.grp 2 (RE.plusCls notRparen), litS ")"]

/-- `\(([^)]+)\)\s*arc\s*\((\d+):(\d+):([^)]+)\)` (colon-form arcs). -/
def arcColonRE : RE :=
  reSeq [litS "(", RE.grp 1 (RE.plusCls notRparen), litS ")", s0, litS "arc", s0,
         litS "(", RE.grp 2 (RE.plusCls Char.isDigit), litS ":",
         RE.grp 3 (RE.plusCls Char.isDigit), litS ":",
         RE.grp 4 (RE.plusCls notRparen), litS ")"]

/-- `\(([^)]+)\)\s*arc\s*\[([^\]]+)\]` (options-form arcs). -/
def arcOptionsRE : RE :=
  reSeq [litS "(", RE.grp 1 (RE.plusCls notRparen), litS ")", s0, litS "arc", s0,
         litS "[", RE.grp 2 (RE.plusCls notRbrack), litS "]"]

/-- `start\s*angle\s*=\s*([\d.-]+)`. -/
def startAngleRE : RE :=
  reSeq [litS "start", s0, litS "angle", s0, litS "=", s0, RE.grp 1 (RE.plusCls isNumTok)]

/-- `end\s*angle\s*=\s*([\d.-]+)`. -/
def endAngleRE : RE :=
  reSeq [litS "end", s0, litS "angle", s0, litS "=", s0, RE.grp 1 (RE.plusCls isNumTok)]

/-- `radius\s*=\s*([\d.]+)\s*(cm|pt|mm)?`. -/
def radiusOptRE : RE :=
  reSeq [litS "radius", s0, litS "=", s0, RE.grp 1 (RE.plusCls isDigitDot), s0,
         RE.opt (RE.grp 2 unitAltCmPtMm)]

/-! ## Data model -/

/-- A circle record (`elements["circles"]`). -/
structure Circle where
  center : ℚ × ℚ
  radius : ℚ
  deriving DecidableEq, Repr

/-- A line-segment record (`elements["lines"]`); `stop` is Python's `"end"`. -/
structure Line where
  start : ℚ × ℚ
  stop : ℚ × ℚ
  deriving DecidableEq, Repr

/-- A filled-point record (`elements["points"]`). -/
structure PointEl where
  position : ℚ × ℚ
  size : ℚ
  deriving DecidableEq, Repr

/--
The rational data of one arc statement match: start position, start/end
angles in degrees and the radius, before the real-valued center is derived.
-/
structure ArcMatch where
  start_pos : ℚ × ℚ
  start_angle : ℚ
  end_angle : ℚ
  radius : ℚ
  deriving DecidableEq, Repr

/-- An arc record (`elements["arcs"]`), with the derived real-valued center. -/
structure Arc where
  center : ℝ × ℝ
  radius : ℝ
  start_angle : ℝ
  end_angle : ℝ

/-- The structure returned by `parse_tikz_elements` before the real-valued
post-processing (line-length filter, arc centers, relationships). -/
structure CoreElements where
  circles : List Circle
  lines : List Line
  points : List PointEl
  arcMatches : List ArcMatch
  scale : ℚ
  deriving DecidableEq, Repr

/-- The structure returned by `parse_tikz_elements`. -/
structure TikzElements where
  circles : List Circle
  lines : List Line
  points : List PointEl
  arcs : List Arc
  scale : ℚ

/-- A `points_on_lines` relationship record. -/
structure PointOnLineRec where
  point_idx : ℕ
  line_idx : ℕ
  point_pos : ℚ × ℚ
  line_start : ℚ × ℚ
  line_end : ℚ × ℚ
  position_on_line : String
  parameter_t : ℚ
  deriving DecidableEq, Repr

/-- A `points_on_circles` relationship record. -/
structure PointOnCircleRec where
  point_idx : ℕ
  circle_idx : ℕ
  point_pos : ℚ × ℚ
  circle_center : ℚ × ℚ
  distance_to_center : ℝ
  circle_radius : ℚ

/-- A derived sub-segment produced by `split_lines_at_labeled_points`. -/
structure DerivedLine where
  start : ℚ × ℚ
  stop : ℚ × ℚ
  point1_label : String
  point2_label : String
  label : String
  derived_from : String
  deriving DecidableEq, Repr

/-- A derived arc produced by `generate_derived_arcs`. -/
structure DerivedArc where
  center : ℚ × ℚ
  radius : ℚ
  start_angle : ℝ
  end_angle : ℝ
  arc_type : String
  point1_label : String
  point2_label : String
  circle_center_label : Option String
  label : String

/-! ## Python dictionaries as association lists -/

/-- Python `d[k] = v`: overwrite in place, else append (insertion order kept). -/
def dinsert {β : Type} (d : List (String × β)) (k : String) (v : β) : List (String × β) :=
  if d.any (fun p => p.1 == k) then d.map (fun p => if p.1 == k then (k, v) else p)
  else d ++ [(k, v)]

/-- Python `d[k]` / `k in d` lookup (keys are unique by construction). -/
def dlookup {β : Type} (d : List (String × β)) (k : String) : Option β :=
  (d.find? (fun p => p.1 == k)).map (·.2)

/-- The named-coordinate symbol table. -/
abbrev SymTable := List (String × (ℚ × ℚ))

/-- The macro table. -/
abbrev MacroTable := List (String × String)

/-! ## The parsing functions of `tikz_helper.py` -/

/--
`parse_coordinate(coord_str, named_coords)`: strip, look the token up in
the symbol table (Python's `if named_coords and coord_str in named_coords`
behaves like a plain lookup since lookup in an empty table fails), then try
the numeric-pair pattern; `float()` on a matched but malformed group raises
`ValueError`, embedded as `.error ()`; otherwise the token is unresolved.
-/
def parse_coordinate (coord_str : String) (named : SymTable) : Except Unit (Option (ℚ × ℚ)) :=
  let s := pyStrip coord_str.data
  match dlookup named (String.mk s) with
  | some c => .ok (some c)
  | none =>
      match firstMatch numPairRE s with
      | some m =>
          match (capGet m.caps 1).bind parseFloatQ, (capGet m.caps 2).bind parseFloatQ with
          | some a, some b => .ok (some (a, b))
          | _, _ => .error ()
      | none => .ok none

/-- `resolve_macro(value_str, macros)`: strip; a token starting with a
backslash is looked up in the macro table; otherwise it is returned as is. -/
def resolve_macro_value (value_str : String) (mt : MacroTable) : String :=
  let v := pyStrip value_str.data
  match v with
  | '\\' :: name =>
      match dlookup mt (String.mk name) with
      | some repl => repl
      | none => String.mk v
  | _ => String.mk v

/-- Fold one declaration match into the macro table. -/
def macroStep (tbl : MacroTable) (caps : Caps) : MacroTable :=
  dinsert tbl (String.mk (pyStrip ((capGet caps 1).getD [])))
    (String.mk (pyStrip ((capGet caps 2).getD [])))

/-- `extract_latex_macros`: `\def` and `\newcommand` declarations. -/
def extract_latex_macros (code : String) : MacroTable :=
  (finditer newcommandRE code.data).foldl macroStep
    ((finditer defMacroRE code.data).foldl macroStep [])

/-- One named-coordinate declaration pattern folded into the symbol table;
the right-hand side goes through `parse_coordinate` (so a malformed numeric
pair raises), and unresolved right-hand sides are skipped. -/
def addNamedFrom (code : List Char) (r : RE) (tbl : SymTable) : Except Unit SymTable :=
  (finditer r code).foldlM (fun acc caps => do
    let name := String.mk (pyStrip ((capGet caps 1).getD []))
    let c ← parse_coordinate (String.mk (pyStrip ((capGet caps 2).getD []))) []
    match c with
    | some v => pure (dinsert acc name v)
    | none => pure acc) tbl

/-- `extract_named_coordinates`: the four declaration patterns, in order. -/
def extract_named_coordinates (code : String) : Except Unit SymTable := do
  let t1 ← addNamedFrom code.data coordDecl1RE []
  let t2 ← addNamedFrom code.data coordDecl2RE t1
  let t3 ← addNamedFrom code.data nodeDecl1RE t2
  addNamedFrom code.data nodeDecl2RE t3

/-- The local helper `resolve_coord` of `parse_tikz_elements`. -/
def resolve_coord (named : SymTable) (coord_str : String) : Except Unit (Option (ℚ × ℚ)) := do
  let c ← parse_coordinate coord_str named
  match c with
  | some v => pure (some v)
  | none => pure (dlookup named coord_str)

/--
The local helper `parse_radius` of `parse_tikz_elements`: macro resolution,
then the anchored number-with-optional-unit pattern (`pt` divides by 28.45,
`mm` divides by 10; `float()` on a matched but malformed group raises),
then a raw `float()` fallback whose failure yields the 1.0 default.
-/
def parse_radius (radius_str : String) (mt : MacroTable) : Except Unit ℚ :=
  let rs := resolve_macro_value radius_str mt
  match firstMatch radiusRE rs.data with
  | some m =>
      match (capGet m.caps 1).bind parseFloatQ with
      | some v =>
          let unit := (capGet m.caps 2).getD []
          .ok (if unit = "pt".data then v / (569/20)
               else if unit = "mm".data then v / 10 else v)
      | none => .error ()
  | none =>
      match parseFloatQ rs.data with
      | some v => .ok v
      | none => .ok 1

/-- `parse_tikz_scale`: search for the scale option; `float()` on the
matched group can raise; no match means scale 1.0. -/
def parse_tikz_scale (code : String) : Except Unit ℚ :=
  match searchPos scaleRE code.data with
  | some m =>
      match (capGet m.caps 1).bind parseFloatQ with
      | some v => .ok v
      | none => .error ()
  | none => .ok 1

/-- One circle-pattern match: resolve the center, parse the radius (both can
raise, and both run before the center is tested), and emit when the center
resolved. -/
def circleFromMatch (named : SymTable) (mt : MacroTable) (center_str radius_str : String) :
    Except Unit (Option Circle) := do
  let center ← resolve_coord named (String.mk (pyStrip center_str.data))
  let radius ← parse_radius (String.mk (pyStrip radius_str.data)) mt
  match center with
  | some c => pure (some ⟨c, radius⟩)
  | none => pure none

/-- The circle extraction loop of `parse_tikz_elements`. -/
def extract_circles (code : String) (named : SymTable) (mt : MacroTable) :
    Except Unit (List Circle) :=
  (finditer circleRE code.data).foldlM (fun acc caps => do
    match ← circleFromMatch named mt (String.mk ((capGet caps 1).getD []))
        (String.mk ((capGet caps 2).getD [])) with
    | some c => pure (acc ++ [c])
    | none => pure acc) []

/-- All parenthesised tokens of a statement (`re.findall(r'\(([^)]+)\)', stmt)`). -/
def findTokens (stmt : List Char) : List (List Char) :=
  (finditer parenTokRE stmt).map (fun caps => (capGet caps 1).getD [])

/-- Token filter of the line extraction: skip style options and node content. -/
def tokenSkipped (p : List Char) : Bool :=
  p.contains '=' || p.head? == some '[' || containsSub (toLowerList p) "node".data

/-- The resolved coordinate points of one draw statement, in order. -/
def resolvedPoints (named : SymTable) (stmt : List Char) : Except Unit (List (ℚ × ℚ)) :=
  (findTokens stmt).foldlM (fun acc p => do
    if tokenSkipped p then pure acc
    else
      match ← resolve_coord named (String.mk p) with
      | some v => pure (acc ++ [v])
      | none => pure acc) []

/--
The per-statement body of the line extraction: a statement containing
`\draw` and `--` but no `circle` yields one segment per consecutive pair of
resolved points, plus a closing segment when the statement contains `cycle`
and at least three points resolved.  (The out-of-range `getD` defaults are
never reached.)
-/
def processStmt (named : SymTable) (stmt : List Char) : Except Unit (List Line) := do
  if containsSub stmt "\\draw".data && containsSub stmt "--".data &&
      !containsSub (toLowerList stmt) "circle".data then
    let pts ← resolvedPoints named stmt
    let segs := (List.range (pts.length - 1)).map
      (fun i => Line.mk (pts.getD i (0, 0)) (pts.getD (i + 1) (0, 0)))
    if containsSub (toLowerList stmt) "cycle".data && decide (3 ≤ pts.length) then
      pure (segs ++ [Line.mk (pts.getD (pts.length - 1) (0, 0)) (pts.getD 0 (0, 0))])
    else
      pure segs
  else
    pure []

/-- The line extraction of `parse_tikz_elements`: split on `;`, process each
statement. -/
def extract_lines (code : String) (named : SymTable) : Except Unit (List Line) :=
  (code.data.splitOn ';').foldlM (fun acc st => do
    pure (acc ++ (← processStmt named st))) []

/-- The point-size parse (`^([\d.]+)\s*(pt|cm|mm)?$`, default unit `pt`,
`cm` multiplies by 28.45, `mm` by 2.845, no match gives the 2.0 default). -/
def parsePointSize (size_str : List Char) : Except Unit ℚ :=
  match firstMatch sizeRE size_str with
  | some m =>
      match (capGet m.caps 1).bind parseFloatQ with
      | some v =>
          let unit := (capGet m.caps 2).getD "pt".data
          .ok (if unit = "cm".data then v * (569/20)
               else if unit = "mm".data then v * (569/200) else v)
      | none => .error ()
  | none => .ok 2

/-- The filled-point extraction loop for one of the two point patterns. -/
def extract_points_by (r : RE) (code : String) (named : SymTable) :
    Except Unit (List PointEl) :=
  (finditer r code.data).foldlM (fun acc caps => do
    let pos ← resolve_coord named (String.mk (pyStrip ((capGet caps 1).getD [])))
    let size ← parsePointSize (pyStrip ((capGet caps 2).getD []))
    match pos with
    | some p => pure (acc ++ [⟨p, size⟩])
    | none => pure acc) []

/-- The inline radius parse of the colon-form arc extraction: same pattern
as `parse_radius` but no macro resolution and a 0.5 default. -/
def arc_radius_colon (radius_str : List Char) : Except Unit ℚ :=
  match firstMatch radiusRE radius_str with
  | some m =>
      match (capGet m.caps 1).bind parseFloatQ with
      | some v =>
          let unit := (capGet m.caps 2).getD []
          .ok (if unit = "pt".data then v / (569/20)
               else if unit = "mm".data then v / 10 else v)
      | none => .error ()
  | none =>
      match parseFloatQ radius_str with
      | some v => .ok v
      | none => .ok (1/2)

/-- The colon-form arc extraction (`(start) arc (sa:ea:r)`); the angle
groups are digit-only, so their `float()` never raises. -/
def extract_arcs_colon (code : String) (named : SymTable) : Except Unit (List ArcMatch) :=
  (finditer arcColonRE code.data).foldlM (fun acc caps => do
    let sp ← resolve_coord named (String.mk (pyStrip ((capGet caps 1).getD [])))
    let sa : ℚ := (parseFloatQ ((capGet caps 2).getD [])).getD 0
    let ea : ℚ := (parseFloatQ ((capGet caps 3).getD [])).getD 0
    let r ← arc_radius_colon (pyStrip ((capGet caps 4).getD []))
    match sp with
    | some p => pure (acc ++ [⟨p, sa, ea, r⟩])
    | none => pure acc) []

/-- The options-form arc extraction
(`(start) arc [start angle=..., end angle=..., radius=...]`); a match is
emitted only when the start resolves, both angles are present, and the
radius is present and nonzero (Python's truthiness test). -/
def extract_arcs_options (code : String) (named : SymTable) : Except Unit (List ArcMatch) :=
  (finditer arcOptionsRE code.data).foldlM (fun acc caps => do
    let sp ← resolve_coord named (String.mk (pyStrip ((capGet caps 1).getD [])))
    let opts := (capGet caps 2).getD []
    let sa : Option ℚ ←
      match searchPos startAngleRE opts with
      | some m =>
          match (capGet m.caps 1).bind parseFloatQ with
          | some v => pure (some v)
          | none => Except.error ()
      | none => pure none
    let ea : Option ℚ ←
      match searchPos endAngleRE opts with
      | some m =>
          match (capGet m.caps 1).bind parseFloatQ with
          | some v => pure (some v)
          | none => Except.error ()
      | none => pure none
    let r : Option ℚ ←
      match searchPos radiusOptRE opts with
      | some m =>
          match (capGet m.caps 1).bind parseFloatQ with
          | some v =>
              let unit := (capGet m.caps 2).getD []
              pure (some (if unit = "pt".data then v / (569/20)
                          else if unit = "mm".data then v / 10 else v))
          | none => Except.error ()
      | none => pure none
    match sp, sa, ea, r with
    | some p, some a1, some a2, some rv =>
        if rv == 0 then pure acc else pure (acc ++ [⟨p, a1, a2, rv⟩])
    | _, _, _, _ => pure acc) []

/-- Python 3 `round(x, 3)`: round half to even at the third decimal. -/
def pyRound3 (q : ℚ) : ℚ :=
  let x := q * 1000
  let n := ⌊x⌋
  let f := x - n
  (if f < 1/2 then n else if 1/2 < f then n + 1
   else if n % 2 = 0 then n else n + 1 : ℤ) / 1000

/-- The rounded deduplication key of a point position. -/
def roundKey (p : ℚ × ℚ) : ℚ × ℚ := (pyRound3 p.1, pyRound3 p.2)

/-- The point deduplication pass (first occurrence of a rounded key wins). -/
def dedupPoints : List PointEl → List (ℚ × ℚ) → List PointEl
  | [], _ => []
  | p :: rest, seen =>
      let k := roundKey p.position
      if seen.contains k then dedupPoints rest seen
      else p :: dedupPoints rest (seen ++ [k])

/-- `parse_tikz_elements`, up to (and in the order of) the extraction
stages that compute with rationals; the real-valued post-processing is in
`parse_tikz_elements` below. -/
def parse_tikz_elements_core (code : String) : Except Unit CoreElements := do
  let scale ← parse_tikz_scale code
  let named ← extract_named_coordinates code
  let mt := extract_latex_macros code
  let circles ← extract_circles code named mt
  let lines ← extract_lines code named
  let fillPts ← extract_points_by fillPointRE code named
  let fdPts ← extract_points_by filldrawPointRE code named
  let arcs1 ← extract_arcs_colon code named
  let arcs2 ← extract_arcs_options code named
  pure ⟨circles, lines, dedupPoints (fillPts ++ fdPts) [], arcs1 ++ arcs2, scale⟩

/-! ## Real-valued post-processing and geometry -/

open Real in
/-- The arc record built from one arc match: the center is derived as
`start_pos - radius * (cos(start_angle), sin(start_angle))`, the angle
taken in degrees and converted to radians (`math.radians`), in both arc
branches of `parse_tikz_elements`. -/
noncomputable def mkArc (m : ArcMatch) : Arc :=
  { center := ((m.start_pos.1 : ℝ) - (m.radius : ℝ) * Real.cos ((m.start_angle : ℝ) * (π / 180)),
               (m.start_pos.2 : ℝ) - (m.radius : ℝ) * Real.sin ((m.start_angle : ℝ) * (π / 180)))
    radius := (m.radius : ℝ)
    start_angle := (m.start_angle : ℝ)
    end_angle := (m.end_angle : ℝ) }

/-- The length of a line segment (`math.sqrt` of the squared difference). -/
noncomputable def lineLen (l : Line) : ℝ :=
  Real.sqrt (((l.stop.1 : ℝ) - (l.start.1 : ℝ)) ^ 2 + ((l.stop.2 : ℝ) - (l.start.2 : ℝ)) ^ 2)

open Classical in
/-- `parse_tikz_elements`: the core stages, then the short-line filter
(`MIN_LINE_LENGTH = 0.3`) and the arc-center derivation.  The
`relationships` entry is modelled by the predicates below. -/
noncomputable def parse_tikz_elements (code : String) : Except Unit TikzElements :=
  (parse_tikz_elements_core code).map fun e =>
    { circles := e.circles
      lines := e.lines.filter (fun l => decide ((3/10 : ℝ) ≤ lineLen l))
      points := e.points
      arcs := e.arcMatches.map mkArc
      scale := e.scale }

/-- Euclidean distance between two rational points, as computed with
`math.sqrt` in `compute_geometric_relationships`. -/
noncomputable def euclidDist (p q : ℚ × ℚ) : ℝ :=
  Real.sqrt (((p.1 : ℝ) - (q.1 : ℝ)) ^ 2 + ((p.2 : ℝ) - (q.2 : ℝ)) ^ 2)

/-- The point-on-circle test of `compute_geometric_relationships`:
`abs(dist - radius) < radius * tolerance`. -/
noncomputable def onCircleRel (pos center : ℚ × ℚ) (radius tol : ℚ) : Prop :=
  |euclidDist pos center - (radius : ℝ)| < (radius : ℝ) * (tol : ℝ)

/-- A `points_on_circles` record is produced for point index `pi` and
circle index `ci` exactly when both indices are valid and the on-circle
test holds for that point and circle. -/
noncomputable def pocRecorded (points : List PointEl) (circles : List Circle)
    (tol : ℚ) (pi ci : ℕ) : Prop :=
  ∃ (hp : pi < points.length) (hc : ci < circles.length),
    onCircleRel (points.get ⟨pi, hp⟩).position (circles.get ⟨ci, hc⟩).center
      (circles.get ⟨ci, hc⟩).radius tol

/-- `get_point_label(point_pos, labels, tolerance)`: first label whose
coordinate agrees with the position within the tolerance componentwise. -/
def get_point_label (pos : ℚ × ℚ) (labels : List ((ℚ × ℚ) × String)) (tol : ℚ) :
    Option String :=
  (labels.find? fun cl =>
    decide (|cl.1.1 - pos.1| < tol) && decide (|cl.1.2 - pos.2| < tol)).map (·.2)

/-- Python truthiness of an optional label: `None` and `""` are falsy. -/
def truthyLabel (o : Option String) : Option String :=
  match o with
  | some s => if s.isEmpty then none else some s
  | none => none

/-- Python `get_point_label(...) or default`. -/
def labelOrDefault (o : Option String) (d : String) : String :=
  ((truthyLabel o).getD d)

open Classical in
/-- Python `math.atan2(y, x)` (for finite inputs). -/
noncomputable def atan2 (y x : ℝ) : ℝ :=
  if 0 < x then Real.arctan (y / x)
  else if x < 0 then
    (if 0 ≤ y then Real.arctan (y / x) + Real.pi else Real.arctan (y / x) - Real.pi)
  else
    (if 0 < y then Real.pi / 2 else if y < 0 then -(Real.pi / 2) else 0)

/-- `math.degrees(math.atan2(y, x))`. -/
noncomputable def atan2deg (y x : ℝ) : ℝ := atan2 y x * (180 / Real.pi)

/-- Python float `a % 360.0`: the representative in `[0, 360)`. -/
noncomputable def pyMod360 (a : ℝ) : ℝ := a - 360 * ⌊a / 360⌋

open Classical in
/--
The body of the pair loop of `generate_derived_arcs`, for one unordered
pair of points on a circle: skip same indices and same labels, compute the
two polar angles normalised to `[0, 360)`, order the pair (swapping the
labels along with the angles), split the full circle at the two angles,
and emit the inner arc (the span `≤ 180`) and the outer arc (the
complementary span).  The tuple swap of the source is written
componentwise.
-/
noncomputable def arcsForPair (center : ℚ × ℚ) (radius : ℚ) (center_label : Option String)
    (labels : List ((ℚ × ℚ) × String)) (p1 p2 : ℕ × (ℚ × ℚ)) : List DerivedArc :=
  if p1.1 = p2.1 then []
  else
    let label1 := labelOrDefault (get_point_label p1.2 labels (1/100)) ("P" ++ toString p1.1)
    let label2 := labelOrDefault (get_point_label p2.2 labels (1/100)) ("P" ++ toString p2.1)
    if label1 = label2 then []
    else
      let angle1 := pyMod360 (atan2deg ((p1.2.2 : ℝ) - (center.2 : ℝ)) ((p1.2.1 : ℝ) - (center.1 : ℝ)))
      let angle2 := pyMod360 (atan2deg ((p2.2.2 : ℝ) - (center.2 : ℝ)) ((p2.2.1 : ℝ) - (center.1 : ℝ)))
      let a1 := if angle1 > angle2 then angle2 else angle1
      let a2 := if angle1 > angle2 then angle1 else angle2
      let l1 := if angle1 > angle2 then label2 else label1
      let l2 := if angle1 > angle2 then label1 else label2
      let inner_span := a2 - a1
      let inner_start := if inner_span ≤ 180 then a1 else a2
      let inner_end := if inner_span ≤ 180 then a2 else a1 + 360
      let outer_start := if inner_span ≤ 180 then a2 else a1
      let outer_end := if inner_span ≤ 180 then a1 + 360 else a2
      [{ center := center, radius := radius, start_angle := inner_start,
         end_angle := inner_end, arc_type := "inner", point1_label := l1,
         point2_label := l2, circle_center_label := center_label,
         label := "Arc_" ++ l1 ++ l2 ++ "_inner" },
       { center := center, radius := radius, start_angle := outer_start,
         end_angle := outer_end, arc_type := "outer", point1_label := l1,
         point2_label := l2, circle_center_label := center_label,
         label := "Arc_" ++ l1 ++ l2 ++ "_outer" }]

/-- Worker for `dedupFirst`, carrying the keys already seen. -/
def dedupFirstAux : List ℕ → List ℕ → List ℕ
  | [], _ => []
  | x :: xs, seen =>
      if seen.contains x then dedupFirstAux xs seen
      else x :: dedupFirstAux xs (seen ++ [x])

/-- Keep the first occurrence of each element (Python dict key order). -/
def dedupFirst (l : List ℕ) : List ℕ := dedupFirstAux l []

/-- All unordered pairs of a list, in `itertools.combinations` order. -/
def combPairs {α : Type} : List α → List (α × α)
  | [] => []
  | x :: xs => (xs.map (fun y => (x, y))) ++ combPairs xs

/--
`generate_derived_arcs(elements, labels)`, taking the circle list and the
`points_on_circles` records: group the records by circle index (insertion
order), skip groups with fewer than two points, look up the circle
(Python's `circles[ci]` raises `IndexError` on a bad index, embedded as
`.error ()`), and emit the arcs of every pair via `arcsForPair`.
-/
noncomputable def generate_derived_arcs (circles : List Circle)
    (pocs : List PointOnCircleRec) (labels : List ((ℚ × ℚ) × String)) :
    Except Unit (List DerivedArc) :=
  (dedupFirst (pocs.map (·.circle_idx))).foldlM (fun acc ci => do
    let pts := (pocs.filter (fun r => r.circle_idx == ci)).map
      (fun r => (r.point_idx, r.point_pos))
    if pts.length < 2 then pure acc
    else
      match circles[ci]? with
      | none => Except.error ()
      | some circle =>
          let clabel := get_point_label circle.center labels (1/100)
          pure (acc ++ (combPairs pts).flatMap
            (fun pr => arcsForPair circle.center circle.radius clabel labels pr.1 pr.2))) []

/-- The interior-point filter of `split_lines_at_labeled_points`: keep only
records positioned `"middle"` with `0.01 < t < 0.99`. -/
def interiorOK (r : PointOnLineRec) : Bool :=
  r.position_on_line == "middle" && decide ((1/100 : ℚ) < r.parameter_t) &&
    decide (r.parameter_t < (99/100 : ℚ))

/-- The two sub-segments emitted for one labeled interior point of a line
whose endpoint labels are `slabel` and `elabel`; an unlabeled interior
point, or one sharing an endpoint label, emits nothing. -/
def segmentsForInterior (lstart lstop : ℚ × ℚ) (slabel elabel : String)
    (labels : List ((ℚ × ℚ) × String)) (r : PointOnLineRec) : List DerivedLine :=
  match truthyLabel (get_point_label r.point_pos labels (1/100)) with
  | none => []
  | some plabel =>
      if plabel == slabel || plabel == elabel then []
      else
        [{ start := lstart, stop := r.point_pos, point1_label := slabel,
           point2_label := plabel, label := "Line_" ++ slabel ++ plabel,
           derived_from := "Line_" ++ slabel ++ elabel },
         { start := r.point_pos, stop := lstop, point1_label := plabel,
           point2_label := elabel, label := "Line_" ++ plabel ++ elabel,
           derived_from := "Line_" ++ slabel ++ elabel }]

/--
The per-line body of `split_lines_at_labeled_points`: Python first checks
`li >= len(lines)` (`continue`), reads `lines[li]` (in range here, so the
`getD` default is unreachable), then skips the line unless both endpoint
labels are truthy, and finally emits the sub-segments of every interior
point of the group.
-/
def lineGroupSegments (lines : List Line) (lp : List PointOnLineRec)
    (labels : List ((ℚ × ℚ) × String)) (li : ℕ) : List DerivedLine :=
  if lines.length ≤ li then []
  else
    let line := lines.getD li ⟨(0, 0), (0, 0)⟩
    match truthyLabel (get_point_label line.start labels (1/100)) with
    | none => []
    | some sl =>
        match truthyLabel (get_point_label line.stop labels (1/100)) with
        | none => []
        | some el =>
            (lp.filter (fun q => q.line_idx == li)).flatMap
              (segmentsForInterior line.start line.stop sl el labels)

/--
`split_lines_at_labeled_points(elements, labels)`, taking the line list
and the `points_on_lines` records: group the interior records by line
index (Python dict insertion order) and emit each group's sub-segments.
-/
def split_lines_at_labeled_points (lines : List Line) (pols : List PointOnLineRec)
    (labels : List ((ℚ × ℚ) × String)) : List DerivedLine :=
  let lp := pols.filter interiorOK
  (dedupFirst (lp.map (·.line_idx))).flatMap (lineGroupSegments lines lp labels)

open Classical in
/--
One iteration of the best-candidate scan of the standalone-label matching
loop in `extract_point_labels`: keep the point with the smallest distance
seen so far, subject to `dist < best_dist and dist < 0.5` (`best_dist`
starts at infinity, modelled by the `none` accumulator).
-/
noncomputable def bestFillStep (lc : ℚ × ℚ) (acc : Option ((ℚ × ℚ) × ℝ)) (p : ℚ × ℚ) :
    Option ((ℚ × ℚ) × ℝ) :=
  let d := euclidDist p lc
  match acc with
  | none => if d < 1/2 then some (p, d) else none
  | some (bp, bd) => if d < bd ∧ d < 1/2 then some (p, d) else some (bp, bd)

/-- The best-candidate scan over the fill points, in order. -/
noncomputable def bestFill (lc : ℚ × ℚ) (pts : List (ℚ × ℚ)) : Option (ℚ × ℚ) :=
  (pts.foldl (bestFillStep lc) none).map (·.1)

/--
The standalone-label matching loop of `extract_point_labels` (source lines
436-448): for each standalone label in document order, find its best
unclaimed fill point, record the assignment and consume the point
(`fill_points.remove` drops the first occurrence).
-/
noncomputable def match_standalone_labels :
    List ((ℚ × ℚ) × String) → List (ℚ × ℚ) → List ((ℚ × ℚ) × String)
  | [], _ => []
  | (lc, lab) :: rest, pts =>
      match bestFill lc pts with
      | some bp => (bp, lab) :: match_standalone_labels rest (pts.erase bp)
      | none => match_standalone_labels rest pts

/-! ## The matching procedure described by the specification (for comparison)

The specification describes the standalone-label matching as a globally
sorted greedy procedure; the following definitions follow the
specification's words, not the source, and exist only to be compared with
`match_standalone_labels`. -/

/-- A candidate pair: a standalone label entry and a fill point. -/
abbrev LabelCand := (((ℚ × ℚ) × String) × (ℚ × ℚ))

open Classical in
/-- Spec-side: all candidate label-point pairs within the 0.5 tolerance. -/
noncomputable def specCandidates (ls : List ((ℚ × ℚ) × String)) (pts : List (ℚ × ℚ)) :
    List LabelCand :=
  ls.flatMap fun l => pts.filterMap fun p =>
    if euclidDist p l.1 < 1/2 then some (l, p) else none

open Classical in
/-- Spec-side: the candidate of smallest distance (first one on a tie). -/
noncomputable def specArgmin : List LabelCand → Option LabelCand
  | [] => none
  | c :: cs =>
      match specArgmin cs with
      | none => some c
      | some b => if euclidDist b.2 b.1.1 < euclidDist c.2 c.1.1 then some b else some c

open Classical in
/-- Spec-side greedy procedure, modelled from the claim's words: repeatedly
assign the globally nearest unclaimed label-point pair, removing all
candidates that share its label entry or its point. -/
noncomputable def spec_sorted_match : ℕ → List LabelCand → List ((ℚ × ℚ) × String)
  | 0, _ => []
  | fuel + 1, cands =>
      match specArgmin cands with
      | none => []
      | some c =>
          (c.2, c.1.2) :: spec_sorted_match fuel
            (cands.filter fun d => !(d.1 == c.1) && !(d.2 == c.2))

/-- Spec-side: the full matching described by the claim. -/
noncomputable def spec_greedy_labels (ls : List ((ℚ × ℚ) × String)) (pts : List (ℚ × ℚ)) :
    List ((ℚ × ℚ) × String) :=
  spec_sorted_match (specCandidates ls pts).length (specCandidates ls pts)

/-! ## Helper lemmas -/

/-- Distance between two points on a common horizontal line. -/
theorem euclidDist_horiz (a b c : ℚ) : euclidDist (a, c) (b, c) = |(a : ℝ) - (b : ℝ)| := by
  unfold euclidDist
  simp only [sub_self, ne_eq, OfNat.ofNat_ne_zero, not_false_eq_true, zero_pow, add_zero]
  exact Real.sqrt_sq_eq_abs _

/-- Monadic bind on a successful `Except` computation just continues. -/
theorem exceptBindOk {ε α β : Type} (a : α) (f : α → Except ε β) :
    (do let x ← (Except.ok a : Except ε α); f x) = f a := rfl

/-- `getD` on a mapped range, inside the range. -/
theorem getD_range_map {α : Type} (f : ℕ → α) (k i : ℕ) (d : α) (h : i < k) :
    ((List.range k).map f).getD i d = f i := by
  rw [List.getD_eq_getElem?_getD, List.getElem?_map, List.getElem?_range h]
  rfl

/-! ## C1: point-on-circle classification at the default tolerance -/

/--
C1, counterexample: the claim also asserts that a point at distance exactly
`radius` from the center is always classified on-circle, but extracted
circles can have radius `0` (the radius token `"0"` parses to `0`), and for
such a circle a point at the center has distance exactly the radius while
`|0 - 0| < 0 * 0.15` is false, so it is not classified.
-/
theorem c1_counterexample :
    parse_radius "0" [] = .ok 0 ∧
    euclidDist (0, 0) (0, 0) = ((0 : ℚ) : ℝ) ∧
    ¬ onCircleRel (0, 0) (0, 0) 0 (3/20) := by
  refine ⟨by decide, by rw [euclidDist_horiz]; norm_num, ?_⟩
  unfold onCircleRel
  rw [euclidDist_horiz]
  norm_num

/--
C1 (amended): a relationship record for a (point, circle) pair is produced
at the default tolerance `0.15` iff `|dist - radius| < radius * 0.15`; a
point at distance exactly `radius` from the center is classified on-circle
whenever the radius is positive; and a point at distance `1.3 * radius` is
never classified on-circle (for any nonnegative radius).
-/
theorem c1_point_on_circle_amended :
    (∀ (points : List PointEl) (circles : List Circle) (pi ci : ℕ),
      pocRecorded points circles (3/20) pi ci ↔
        ∃ (hp : pi < points.length) (hc : ci < circles.length),
          |euclidDist (points.get ⟨pi, hp⟩).position (circles.get ⟨ci, hc⟩).center -
              ((circles.get ⟨ci, hc⟩).radius : ℝ)| <
            ((circles.get ⟨ci, hc⟩).radius : ℝ) * (3/20 : ℝ)) ∧
    (∀ (pos center : ℚ × ℚ) (r : ℚ), 0 < r →
      euclidDist pos center = (r : ℝ) → onCircleRel pos center r (3/20)) ∧
    (∀ (pos center : ℚ × ℚ) (r : ℚ), 0 ≤ r →
      euclidDist pos center = (13/10 : ℝ) * (r : ℝ) → ¬ onCircleRel pos center r (3/20)) := by
  refine ⟨fun points circles pi ci => ?_,
    fun pos center r hr hd => ?_, fun pos center r hr hd => ?_⟩
  · unfold pocRecorded onCircleRel
    have hcast : ((3/20 : ℚ) : ℝ) = (3/20 : ℝ) := by norm_num
    simp only [hcast]
  · have hr' : (0 : ℝ) < (r : ℝ) := by exact_mod_cast hr
    unfold onCircleRel
    rw [hd, sub_self, abs_zero]
    have ht : (0 : ℝ) < ((3/20 : ℚ) : ℝ) := by norm_num
    exact mul_pos hr' ht
  · have hr' : (0 : ℝ) ≤ (r : ℝ) := by exact_mod_cast hr
    unfold onCircleRel
    rw [hd]
    intro h
    rw [abs_of_nonneg (by linarith)] at h
    have ht : ((3/20 : ℚ) : ℝ) = 3/20 := by norm_num
    rw [ht] at h
    linarith

/-- C1, witness for the amended theorem at radius 1. -/
theorem c1_witness :
    onCircleRel (1, 0) (0, 0) 1 (3/20) ∧ ¬ onCircleRel (13/10, 0) (0, 0) 1 (3/20) := by
  constructor
  · apply c1_point_on_circle_amended.2.1 (1, 0) (0, 0) 1 (by norm_num)
    rw [euclidDist_horiz]
    norm_num
  · apply c1_point_on_circle_amended.2.2 (13/10, 0) (0, 0) 1 (by norm_num)
    rw [euclidDist_horiz]
    norm_num

/-! ## C2: the coordinate resolver -/

/--
C2, counterexample: the claim asserts that a literal pair `"a,b"` always
resolves to exactly `(a, b)` and that any other form returns null.  Both
parts fail on the code: the symbol table is consulted first, so the token
`"1,2"` resolves to the table entry `(3,4)` when a declaration named the
coordinate `"1,2"` (and such tables are reachable: the extractor accepts
`\coordinate (1,2) at (3,4);`); and the token `"..,0"` (no literal pair,
no name) raises `ValueError` from `float("..")` instead of returning null.
-/
theorem c2_counterexample :
    extract_named_coordinates "\\coordinate (1,2) at (3,4);" = .ok [("1,2", (3, 4))] ∧
    parse_coordinate "1,2" [("1,2", (3, 4))] = .ok (some (3, 4)) ∧
    (Except.ok (some ((3 : ℚ), (4 : ℚ))) : Except Unit (Option (ℚ × ℚ))) ≠ .ok (some (1, 2)) ∧
    parse_coordinate "..,0" [] = .error () :=
  ⟨by decide, by decide, by decide, by decide⟩

/--
C2 (amended): after stripping, a token found in the symbol table resolves
to the table entry (even if it is also a literal pair); otherwise a token
matching the numeric-pair pattern with both halves parseable as signed
decimals resolves to exactly that pair of values; otherwise a token
matching the numeric-pair pattern with an unparseable half raises
`ValueError`; and any other form returns null.
-/
theorem c2_parse_coordinate_amended (s : String) (named : SymTable) :
    (∀ c, dlookup named (String.mk (pyStrip s.data)) = some c →
        parse_coordinate s named = .ok (some c)) ∧
    (dlookup named (String.mk (pyStrip s.data)) = none →
      (∀ m, firstMatch numPairRE (pyStrip s.data) = some m →
        (∀ a b, (capGet m.caps 1).bind parseFloatQ = some a →
            (capGet m.caps 2).bind parseFloatQ = some b →
            parse_coordinate s named = .ok (some (a, b))) ∧
        (((capGet m.caps 1).bind parseFloatQ = none ∨
            (capGet m.caps 2).bind parseFloatQ = none) →
          parse_coordinate s named = .error ())) ∧
      (firstMatch numPairRE (pyStrip s.data) = none →
        parse_coordinate s named = .ok none)) := by
  constructor
  · intro c hc
    simp only [parse_coordinate, hc]
  · intro hnone
    refine ⟨fun m hm => ⟨fun a b ha hb => ?_, fun h => ?_⟩, fun hm => ?_⟩
    · simp only [parse_coordinate, hnone, hm, ha, hb]
    · rcases h with h | h
      · simp only [parse_coordinate, hnone, hm, h]
      · simp only [parse_coordinate, hnone, hm, h]
        cases (capGet m.caps 1).bind parseFloatQ <;> rfl
    · simp only [parse_coordinate, hnone, hm]

/-- C2, witness: a plain literal pair with an empty symbol table. -/
theorem c2_witness : parse_coordinate "3,4" [] = .ok (some (3, 4)) := by
  exact ((c2_parse_coordinate_amended "3,4" []).2 (by decide)).1
    ⟨[(1, "3".data), (2, "4".data)], []⟩ (by decide) |>.1 3 4 (by decide) (by decide)

/-! ## C3: circle extraction and radius normalization -/

/--
C3, counterexample: the centre token of a circle statement is resolved
through the symbol table before the literal-pair parse, so on
`\coordinate (0,0) at (5,5);\draw (0,0) circle (1);` the extractor emits
one circle with centre `(5,5)`, not the literal centre `(0,0)` written in
the statement — the claim's "center (cx, cy)" fails.
-/
theorem c3_counterexample :
    parse_tikz_elements_core "\\coordinate (0,0) at (5,5);\\draw (0,0) circle (1);" =
      .ok ⟨[⟨(5, 5), 1⟩], [], [], [], 1⟩ ∧
    parse_tikz_elements "\\coordinate (0,0) at (5,5);\\draw (0,0) circle (1);" =
      .ok ⟨[⟨(5, 5), 1⟩], [], [], [], 1⟩ ∧
    ((5 : ℚ), (5 : ℚ)) ≠ ((0 : ℚ), (0 : ℚ)) := by
  have hcore : parse_tikz_elements_core
      "\\coordinate (0,0) at (5,5);\\draw (0,0) circle (1);" =
      .ok ⟨[⟨(5, 5), 1⟩], [], [], [], 1⟩ := by decide
  exact ⟨hcore, by simp [parse_tikz_elements, hcore, Except.map], by decide⟩

/--
C3 (amended): the radius parse normalizes a matched number to the large
unit (`pt` divides by 28.45, `mm` divides by 10, an unsuffixed number is
taken as is); a circle match whose center resolves and whose radius parses
emits exactly one circle with the RESOLVED center — the symbol table is
consulted before the literal-pair parse, so a binding whose name is the
centre token shadows the literal — and on the concrete statement
`\draw (0,0) circle (56.9pt);` (no shadowing binding) the extractor yields
exactly one circle with center `(0,0)` and radius exactly `2`.
-/
theorem c3_circle_extraction_amended :
    (∀ (s : String) (mt : MacroTable) (m : MRes) (v : ℚ),
      firstMatch radiusRE (resolve_macro_value s mt).data = some m →
      (capGet m.caps 1).bind parseFloatQ = some v →
      ((capGet m.caps 2 = some "pt".data → parse_radius s mt = .ok (v / (569/20))) ∧
       (capGet m.caps 2 = some "mm".data → parse_radius s mt = .ok (v / 10)) ∧
       (capGet m.caps 2 = none → parse_radius s mt = .ok v))) ∧
    (∀ (named : SymTable) (mt : MacroTable) (g1 g2 : String) (c : ℚ × ℚ) (r : ℚ),
      resolve_coord named (String.mk (pyStrip g1.data)) = .ok (some c) →
      parse_radius (String.mk (pyStrip g2.data)) mt = .ok r →
      circleFromMatch named mt g1 g2 = .ok (some ⟨c, r⟩)) ∧
    (∀ (named : SymTable) (s : String) (c : ℚ × ℚ),
      dlookup named (String.mk (pyStrip s.data)) = some c →
      resolve_coord named s = .ok (some c)) ∧
    parse_tikz_elements_core "\\draw (0,0) circle (56.9pt);" =
      .ok ⟨[⟨(0, 0), 2⟩], [], [], [], 1⟩ ∧
    parse_tikz_elements "\\draw (0,0) circle (56.9pt);" =
      .ok ⟨[⟨(0, 0), 2⟩], [], [], [], 1⟩ := by
  refine ⟨fun s mt m v hm hv => ⟨fun hu => ?_, fun hu => ?_, fun hu => ?_⟩,
    fun named mt g1 g2 c r hc hr => ?_, fun named s c h => ?_, by decide, ?_⟩
  · simp only [parse_radius, hm, hv, hu, Option.getD_some]
    simp
  · simp only [parse_radius, hm, hv, hu, Option.getD_some]
    simp
  · simp only [parse_radius, hm, hv, hu, Option.getD_none]
    simp
  · simp only [circleFromMatch, bind, Except.bind, hc, hr]
    rfl
  · simp only [resolve_coord, parse_coordinate, h, bind, Except.bind]
    rfl
  · have hcore : parse_tikz_elements_core "\\draw (0,0) circle (56.9pt);" =
        .ok ⟨[⟨(0, 0), 2⟩], [], [], [], 1⟩ := by decide
    simp [parse_tikz_elements, hcore, Except.map]

/-- C3, witness: the `pt` normalization at the value from `56.9pt`, the
emitted circle, and a concrete shadowing resolution. -/
theorem c3_witness :
    parse_radius "56.9pt" [] = .ok ((569/10 : ℚ) / (569/20)) ∧
    circleFromMatch [] [] "0,0" "56.9pt" = .ok (some ⟨(0, 0), (569/10 : ℚ) / (569/20)⟩) ∧
    resolve_coord [("0,0", ((5 : ℚ), (5 : ℚ)))] "0,0" = .ok (some (5, 5)) := by
  have h1 : parse_radius "56.9pt" [] = .ok ((569/10 : ℚ) / (569/20)) :=
    (c3_circle_extraction_amended.1 "56.9pt" [] ⟨[(1, "56.9".data), (2, "pt".data)], []⟩ (569/10)
      (by decide) (by decide)).1 (by decide)
  exact ⟨h1, c3_circle_extraction_amended.2.1 [] [] "0,0" "56.9pt" (0, 0) _ (by decide) h1,
    c3_circle_extraction_amended.2.2.1 [("0,0", (5, 5))] "0,0" (5, 5) (by decide)⟩

/-! ## C5: line-segment extraction -/

/--
C5, counterexample: the claim asserts that a `cycle` statement always gets
an additional closing segment, but the code adds it only when at least
three points resolved: `\draw (0,0) -- (1,1) -- cycle` contains `cycle`
and has two resolved points, yet only the single consecutive segment is
emitted and no closing segment `(1,1) -- (0,0)` appears.
-/
theorem c5_counterexample :
    extract_lines "\\draw (0,0) -- (1,1) -- cycle" [] = .ok [⟨(0, 0), (1, 1)⟩] ∧
    containsSub (toLowerList "\\draw (0,0) -- (1,1) -- cycle".data) "cycle".data = true ∧
    ¬ (Line.mk (1, 1) (0, 0) ∈ [Line.mk (0, 0) (1, 1)]) :=
  ⟨by decide, by decide, by decide⟩

/--
C5 (amended): for a draw statement containing `--` and no circle directive
whose coordinate tokens resolve to the list `pts`, the extractor emits one
segment per consecutive pair of resolved points (`pts.length - 1` of
them), plus one closing segment from the last resolved point back to the
first exactly when the statement contains `cycle` and at least three
points resolved.
-/
theorem c5_line_segments_amended (named : SymTable) (stmt : List Char) (pts : List (ℚ × ℚ))
    (h1 : containsSub stmt "\\draw".data = true)
    (h2 : containsSub stmt "--".data = true)
    (h3 : containsSub (toLowerList stmt) "circle".data = false)
    (hp : resolvedPoints named stmt = .ok pts) :
    ∃ segs : List Line,
      processStmt named stmt = .ok segs ∧
      segs.length = (pts.length - 1) +
        (if containsSub (toLowerList stmt) "cycle".data = true ∧ 3 ≤ pts.length
         then 1 else 0) ∧
      (∀ i, i < pts.length - 1 →
        segs.getD i (Line.mk (0, 0) (0, 0)) =
          Line.mk (pts.getD i (0, 0)) (pts.getD (i + 1) (0, 0))) ∧
      (containsSub (toLowerList stmt) "cycle".data = true → 3 ≤ pts.length →
        segs.getD (pts.length - 1) (Line.mk (0, 0) (0, 0)) =
          Line.mk (pts.getD (pts.length - 1) (0, 0)) (pts.getD 0 (0, 0))) := by
  have hbase : ∀ i, i < pts.length - 1 →
      ((List.range (pts.length - 1)).map
        (fun i => Line.mk (pts.getD i (0, 0)) (pts.getD (i + 1) (0, 0)))).getD i
          (Line.mk (0, 0) (0, 0)) =
        Line.mk (pts.getD i (0, 0)) (pts.getD (i + 1) (0, 0)) :=
    fun i hi => getD_range_map _ _ _ _ hi
  have hlenbase : ((List.range (pts.length - 1)).map
      (fun i => Line.mk (pts.getD i (0, 0)) (pts.getD (i + 1) (0, 0)))).length =
      pts.length - 1 := by
    rw [List.length_map, List.length_range]
  have hcond : (containsSub stmt "\\draw".data && containsSub stmt "--".data &&
      !containsSub (toLowerList stmt) "circle".data) = true := by
    rw [h1, h2, h3]
    rfl
  unfold processStmt
  rw [if_pos hcond, hp]
  simp only [exceptBindOk]
  set B := (List.range (pts.length - 1)).map
    (fun i => Line.mk (pts.getD i (0, 0)) (pts.getD (i + 1) (0, 0))) with hB
  cases hcyc : containsSub (toLowerList stmt) "cycle".data
  · refine ⟨B, ?_, ?_, hbase, fun hc => Bool.noConfusion hc⟩
    · rw [if_neg (by simp)]
      rfl
    · rw [hlenbase]
      rfl
  · by_cases hlen : 3 ≤ pts.length
    · refine ⟨B ++ [Line.mk (pts.getD (pts.length - 1) (0, 0)) (pts.getD 0 (0, 0))],
        ?_, ?_, ?_, ?_⟩
      · rw [if_pos (by rw [decide_eq_true hlen]; rfl)]
        rfl
      · rw [List.length_append, hlenbase, if_pos ⟨rfl, hlen⟩]
        rfl
      · intro i hi
        rw [List.getD_append _ _ _ _ (by rw [hlenbase]; exact hi)]
        exact hbase i hi
      · intro _ _
        rw [List.getD_append_right _ _ _ _ (by rw [hlenbase])]
        rw [hlenbase, Nat.sub_self]
        rfl
    · refine ⟨B, ?_, ?_, hbase, fun _ hc => absurd hc hlen⟩
      · rw [if_neg (by rw [decide_eq_false hlen]; decide)]
        rfl
      · rw [hlenbase, if_neg (by rintro ⟨-, hc⟩; exact hlen hc)]
        rfl

/-- C5, witness: a three-point cycle statement. -/
theorem c5_witness :
    ∃ segs : List Line,
      processStmt [] "\\draw (0,0) -- (2,0) -- (2,2) -- cycle".data = .ok segs ∧
      segs.length = 3 := by
  obtain ⟨segs, hs, hlen, -, -⟩ :=
    c5_line_segments_amended [] "\\draw (0,0) -- (2,0) -- (2,2) -- cycle".data
      [(0, 0), (2, 0), (2, 2)] (by decide) (by decide) (by decide) (by decide)
  refine ⟨segs, hs, ?_⟩
  rw [hlen, if_pos ⟨by decide, by decide⟩]
  rfl

/-! ## C8: radius default fallbacks -/

/--
C8, counterexample: the claim asserts a 1.0 default for every unparseable
radius, including arc statements; but the colon-form arc radius fallback
substitutes 0.5: for `\draw (1,0) arc (0:90:abc);` the emitted arc has
radius `1/2`, not `1` (while `parse_radius`, used for circles, does return
`1` on the same token).
-/
theorem c8_counterexample :
    parse_radius "abc" [] = .ok 1 ∧
    arc_radius_colon "abc".data = .ok (1/2) ∧
    extract_arcs_colon "\\draw (1,0) arc (0:90:abc);" [] = .ok [⟨(1, 0), 0, 90, 1/2⟩] ∧
    ((1 : ℚ)/2) ≠ 1 :=
  ⟨by decide, by decide, by decide, by decide⟩

/--
C8 (amended): a radius string that matches neither the
number-with-optional-unit pattern nor a raw decimal defaults to `1.0` in
`parse_radius` (used for circle statements) and to `0.5` in the colon-form
arc radius parse.
-/
theorem c8_radius_default_amended (s : String) (mt : MacroTable) (t : List Char)
    (h1 : firstMatch radiusRE (resolve_macro_value s mt).data = none)
    (h2 : parseFloatQ (resolve_macro_value s mt).data = none)
    (h3 : firstMatch radiusRE t = none) (h4 : parseFloatQ t = none) :
    parse_radius s mt = .ok 1 ∧ arc_radius_colon t = .ok (1/2) := by
  constructor
  · simp only [parse_radius, h1, h2]
  · simp only [arc_radius_colon, h3, h4]

/-- C8, witness at the token `abc`. -/
theorem c8_witness : parse_radius "abc" [] = .ok 1 ∧ arc_radius_colon "abc".data = .ok (1/2) :=
  c8_radius_default_amended "abc" [] "abc".data (by decide) (by decide) (by decide) (by decide)

/-! ## C10: the extractor can raise on malformed input -/

/--
C10 (code bug): the claim (and the spec's failure policy) says the
primitive extractor never raises and only drops unresolvable matches; but
on `\draw (..,0) -- (1,1);` the coordinate token `..,0` matches the
numeric-pair pattern and `float("..")` raises `ValueError`, which
propagates out of `parse_tikz_elements`.
-/
theorem c10_extractor_raises :
    parse_tikz_elements "\\draw (..,0) -- (1,1);" = .error () ∧
    parse_tikz_elements "\\draw (1.2.3,0) circle (1);" = .error () ∧
    parse_tikz_elements "\\draw (0,0) circle (1.2.3);" = .error () ∧
    parse_tikz_elements "\\begin\x7btikzpicture\x7d[scale=1.2.3]\\draw (0,0) -- (1,1);" =
      .error () := by
  have h1 : parse_tikz_elements_core "\\draw (..,0) -- (1,1);" = .error () := by decide
  have h2 : parse_tikz_elements_core "\\draw (1.2.3,0) circle (1);" = .error () := by decide
  have h3 : parse_tikz_elements_core "\\draw (0,0) circle (1.2.3);" = .error () := by decide
  have h4 : parse_tikz_elements_core
      "\\begin\x7btikzpicture\x7d[scale=1.2.3]\\draw (0,0) -- (1,1);" = .error () := by decide
  exact ⟨by simp [parse_tikz_elements, h1, Except.map], by simp [parse_tikz_elements, h2, Except.map],
    by simp [parse_tikz_elements, h3, Except.map], by simp [parse_tikz_elements, h4, Except.map]⟩

/-! ## C4: arc center derivation -/

/--
C4: every arc emitted by the extractor, in both syntactic forms, has
center `start - radius * (cos(start_angle), sin(start_angle))` with the
start angle in degrees converted to radians: every arc record is `mkArc`
of some match, `mkArc` computes exactly that center, both forms reach it
(concretely checked on one statement of each form), and at start angle 0
the concrete arc `(1,0) arc (0:90:1)` has center `(0, 0)`.
-/
theorem c4_arc_center_derivation :
    (∀ m : ArcMatch,
      (mkArc m).center =
        ((m.start_pos.1 : ℝ) - (m.radius : ℝ) * Real.cos ((m.start_angle : ℝ) * (Real.pi / 180)),
         (m.start_pos.2 : ℝ) - (m.radius : ℝ) * Real.sin ((m.start_angle : ℝ) * (Real.pi / 180))) ∧
      (mkArc m).start_angle = (m.start_angle : ℝ) ∧
      (mkArc m).end_angle = (m.end_angle : ℝ) ∧ (mkArc m).radius = (m.radius : ℝ)) ∧
    (∀ (code : String) (els : TikzElements), parse_tikz_elements code = .ok els →
      ∀ a ∈ els.arcs, ∃ m : ArcMatch, a = mkArc m ∧
        a.center =
          ((m.start_pos.1 : ℝ) - (m.radius : ℝ) * Real.cos ((m.start_angle : ℝ) * (Real.pi / 180)),
           (m.start_pos.2 : ℝ) - (m.radius : ℝ) * Real.sin ((m.start_angle : ℝ) * (Real.pi / 180)))) ∧
    extract_arcs_colon "\\draw (1,0) arc (0:90:1);" [] = .ok [⟨(1, 0), 0, 90, 1⟩] ∧
    extract_arcs_options "\\draw (1,0) arc [start angle=0, end angle=90, radius=1];" [] =
      .ok [⟨(1, 0), 0, 90, 1⟩] ∧
    (mkArc ⟨(1, 0), 0, 90, 1⟩).center = ((0 : ℝ), (0 : ℝ)) := by
  refine ⟨fun m => ⟨rfl, rfl, rfl, rfl⟩, fun code els hok a ha => ?_, by decide, by decide, ?_⟩
  · unfold parse_tikz_elements at hok
    cases hcore : parse_tikz_elements_core code with
    | error e => rw [hcore] at hok; exact absurd hok (by simp [Except.map])
    | ok e =>
        rw [hcore] at hok
        simp only [Except.map, Except.ok.injEq] at hok
        rw [← hok] at ha
        obtain ⟨m, -, hm⟩ := List.mem_map.mp ha
        exact ⟨m, hm.symm, by rw [← hm]; rfl⟩
  · simp only [mkArc]
    norm_num [Prod.ext_iff]

/-- C4, witness: the colon-form statement above, end to end. -/
theorem c4_witness :
    ∃ m : ArcMatch, mkArc ⟨(1, 0), 0, 90, 1⟩ = mkArc m ∧
      (mkArc ⟨(1, 0), 0, 90, 1⟩).center =
        ((m.start_pos.1 : ℝ) - (m.radius : ℝ) * Real.cos ((m.start_angle : ℝ) * (Real.pi / 180)),
         (m.start_pos.2 : ℝ) - (m.radius : ℝ) * Real.sin ((m.start_angle : ℝ) * (Real.pi / 180))) := by
  have hcore : parse_tikz_elements_core "\\draw (1,0) arc (0:90:1);" =
      .ok ⟨[], [], [], [⟨(1, 0), 0, 90, 1⟩], 1⟩ := by decide
  have hp : parse_tikz_elements "\\draw (1,0) arc (0:90:1);" =
      .ok ⟨[], [], [], [mkArc ⟨(1, 0), 0, 90, 1⟩], 1⟩ := by
    simp [parse_tikz_elements, hcore, Except.map]
  exact c4_arc_center_derivation.2.1 "\\draw (1,0) arc (0:90:1);" _ hp
    (mkArc ⟨(1, 0), 0, 90, 1⟩) (by simp)

/-! ## C6: line splitting at labeled interior points -/

/-- `contains` over an appended singleton. -/
theorem contains_append_singleton (seen : List ℕ) (x a : ℕ) :
    (seen ++ [x]).contains a = (seen.contains a || a == x) := by
  induction seen with
  | nil => by_cases h : a = x <;> simp [h]
  | cons y ys ih =>
      by_cases h : a = x <;> by_cases h2 : a = y <;> simp [h, h2]

/-- Membership is preserved into `dedupFirstAux` for unseen elements. -/
theorem mem_dedupFirstAux (a : ℕ) :
    ∀ (l seen : List ℕ), a ∈ l → seen.contains a = false → a ∈ dedupFirstAux l seen := by
  intro l
  induction l with
  | nil => intro seen ha _; cases ha
  | cons x xs ih =>
      intro seen ha hs
      by_cases hc : seen.contains x
      · rw [dedupFirstAux, if_pos hc]
        rcases List.mem_cons.mp ha with rfl | ha'
        · rw [hs] at hc; cases hc
        · exact ih seen ha' hs
      · rw [dedupFirstAux, if_neg hc]
        rcases List.mem_cons.mp ha with rfl | ha'
        · exact List.mem_cons_self _ _
        · by_cases hax : a = x
          · subst hax; exact List.mem_cons_self _ _
          · refine List.mem_cons_of_mem _ (ih _ ha' ?_)
            rw [contains_append_singleton, hs]
            simp [hax]

/-- Membership is preserved into `dedupFirst`. -/
theorem mem_dedupFirst (a : ℕ) (l : List ℕ) (ha : a ∈ l) : a ∈ dedupFirst l :=
  mem_dedupFirstAux a l [] ha rfl

/--
C6: for every drawn line whose endpoints carry (truthy) labels `A` and
`B`, and every `points_on_lines` record on it positioned `"middle"` with
`0.01 < t < 0.99` whose own label `M` differs from both endpoint labels,
the splitting derivation emits exactly the two segments `A-M` and `M-B`
for that record, each tagged `Line_AB` as its parent, and both appear in
the output of `split_lines_at_labeled_points`.
-/
theorem c6_line_splitting (lines : List Line) (pols : List PointOnLineRec)
    (labels : List ((ℚ × ℚ) × String)) (r : PointOnLineRec)
    (hr : r ∈ pols)
    (hmid : r.position_on_line = "middle")
    (ht1 : (1/100 : ℚ) < r.parameter_t) (ht2 : r.parameter_t < (99/100 : ℚ))
    (line : Line) (hlen : r.line_idx < lines.length)
    (hline : lines.getD r.line_idx ⟨(0, 0), (0, 0)⟩ = line)
    (A B M : String)
    (hA : truthyLabel (get_point_label line.start labels (1/100)) = some A)
    (hB : truthyLabel (get_point_label line.stop labels (1/100)) = some B)
    (hM : truthyLabel (get_point_label r.point_pos labels (1/100)) = some M)
    (hMA : M ≠ A) (hMB : M ≠ B) :
    segmentsForInterior line.start line.stop A B labels r =
      [⟨line.start, r.point_pos, A, M, "Line_" ++ A ++ M, "Line_" ++ A ++ B⟩,
       ⟨r.point_pos, line.stop, M, B, "Line_" ++ M ++ B, "Line_" ++ A ++ B⟩] ∧
    (⟨line.start, r.point_pos, A, M, "Line_" ++ A ++ M, "Line_" ++ A ++ B⟩ : DerivedLine) ∈
      split_lines_at_labeled_points lines pols labels ∧
    (⟨r.point_pos, line.stop, M, B, "Line_" ++ M ++ B, "Line_" ++ A ++ B⟩ : DerivedLine) ∈
      split_lines_at_labeled_points lines pols labels := by
  have hseg : segmentsForInterior line.start line.stop A B labels r =
      [⟨line.start, r.point_pos, A, M, "Line_" ++ A ++ M, "Line_" ++ A ++ B⟩,
       ⟨r.point_pos, line.stop, M, B, "Line_" ++ M ++ B, "Line_" ++ A ++ B⟩] := by
    unfold segmentsForInterior
    rw [hM]
    exact if_neg (by simp [hMA, hMB])
  have hint : interiorOK r = true := by
    unfold interiorOK
    rw [hmid, decide_eq_true ht1, decide_eq_true ht2]
    rfl
  have hrlp : r ∈ pols.filter interiorOK := List.mem_filter.mpr ⟨hr, hint⟩
  have hli : r.line_idx ∈ dedupFirst ((pols.filter interiorOK).map (·.line_idx)) :=
    mem_dedupFirst _ _ (List.mem_map.mpr ⟨r, hrlp, rfl⟩)
  have hgroup : r ∈ (pols.filter interiorOK).filter (fun q => q.line_idx == r.line_idx) :=
    List.mem_filter.mpr ⟨hrlp, by simp⟩
  have hgroupeq : lineGroupSegments lines (pols.filter interiorOK) labels r.line_idx =
      ((pols.filter interiorOK).filter (fun q => q.line_idx == r.line_idx)).flatMap
        (segmentsForInterior line.start line.stop A B labels) := by
    simp only [lineGroupSegments]
    rw [if_neg (not_le.mpr hlen), hline, hA, hB]
  have hmem : ∀ seg ∈ segmentsForInterior line.start line.stop A B labels r,
      seg ∈ split_lines_at_labeled_points lines pols labels := by
    intro seg hsegmem
    unfold split_lines_at_labeled_points
    refine List.mem_flatMap.mpr ⟨r.line_idx, hli, ?_⟩
    rw [hgroupeq]
    exact List.mem_flatMap.mpr ⟨r, hgroup, hsegmem⟩
  exact ⟨hseg, hmem _ (by rw [hseg]; exact List.mem_cons_self _ _),
    hmem _ (by rw [hseg]; exact List.mem_cons_of_mem _ (List.mem_cons_self _ _))⟩

/-- C6, witness: segment `A(0,0)-B(10,0)` with interior labeled `M(5,0)`. -/
theorem c6_witness :
    segmentsForInterior (0, 0) (10, 0) "A" "B"
        [((0, 0), "A"), ((10, 0), "B"), ((5, 0), "M")]
        ⟨1, 0, (5, 0), (0, 0), (10, 0), "middle", 1/2⟩ =
      [⟨(0, 0), (5, 0), "A", "M", "Line_AM", "Line_AB"⟩,
       ⟨(5, 0), (10, 0), "M", "B", "Line_MB", "Line_AB"⟩] ∧
    (⟨(0, 0), (5, 0), "A", "M", "Line_AM", "Line_AB"⟩ : DerivedLine) ∈
      split_lines_at_labeled_points [⟨(0, 0), (10, 0)⟩]
        [⟨1, 0, (5, 0), (0, 0), (10, 0), "middle", 1/2⟩]
        [((0, 0), "A"), ((10, 0), "B"), ((5, 0), "M")] ∧
    (⟨(5, 0), (10, 0), "M", "B", "Line_MB", "Line_AB"⟩ : DerivedLine) ∈
      split_lines_at_labeled_points [⟨(0, 0), (10, 0)⟩]
        [⟨1, 0, (5, 0), (0, 0), (10, 0), "middle", 1/2⟩]
        [((0, 0), "A"), ((10, 0), "B"), ((5, 0), "M")] :=
  c6_line_splitting [⟨(0, 0), (10, 0)⟩]
    [⟨1, 0, (5, 0), (0, 0), (10, 0), "middle", 1/2⟩]
    [((0, 0), "A"), ((10, 0), "B"), ((5, 0), "M")]
    ⟨1, 0, (5, 0), (0, 0), (10, 0), "middle", 1/2⟩
    (by decide) (by decide) (by decide) (by decide)
    ⟨(0, 0), (10, 0)⟩ (by decide) (by decide) "A" "B" "M"
    (by decide) (by decide) (by decide) (by decide) (by decide)

/-! ## C7: derived inner/outer arc pairs -/

/-- The Python float modulus into `[0, 360)` is nonnegative. -/
theorem pyMod360_nonneg (a : ℝ) : 0 ≤ pyMod360 a := by
  unfold pyMod360
  have h := Int.floor_le (a / 360)
  have h360 : (0 : ℝ) < 360 := by norm_num
  nlinarith [h]

/-- The Python float modulus into `[0, 360)` is below 360. -/
theorem pyMod360_lt (a : ℝ) : pyMod360 a < 360 := by
  unfold pyMod360
  have h := Int.lt_floor_add_one (a / 360)
  nlinarith [h]

/--
For two `points_on_circles` records on a single circle,
`generate_derived_arcs` emits exactly the arcs of their pair loop.
-/
theorem generate_derived_arcs_pair (c : Circle) (r1 r2 : PointOnCircleRec)
    (labels : List ((ℚ × ℚ) × String))
    (h1 : r1.circle_idx = 0) (h2 : r2.circle_idx = 0) :
    generate_derived_arcs [c] [r1, r2] labels =
      .ok (arcsForPair c.center c.radius (get_point_label c.center labels (1/100)) labels
        (r1.point_idx, r1.point_pos) (r2.point_idx, r2.point_pos)) := by
  unfold generate_derived_arcs
  simp only [List.map_cons, List.map_nil, h1, h2]
  rw [show dedupFirst [0, 0] = [0] from rfl]
  simp only [List.foldlM_cons, List.foldlM_nil, List.filter_cons, List.filter_nil, h1, h2,
    beq_self_eq_true, if_pos, List.map_cons, List.map_nil, List.length_cons, List.length_nil]
  rw [if_neg (by norm_num)]
  rw [show combPairs [(r1.point_idx, r1.point_pos), (r2.point_idx, r2.point_pos)] =
    [((r1.point_idx, r1.point_pos), (r2.point_idx, r2.point_pos))] from rfl]
  simp only [List.flatMap_cons, List.flatMap_nil, List.append_nil, List.nil_append]
  rfl

/--
C7: for every pair of distinct-index points on a circle whose resolved
labels differ, the pair loop of `generate_derived_arcs` emits exactly two
arc records: the first tagged `"inner"` with nonnegative angular span at
most 180 degrees, the second tagged `"outer"` with the complementary span,
and the two spans sum to 360 degrees.
-/
theorem c7_derived_arc_pairs (center : ℚ × ℚ) (radius : ℚ) (clabel : Option String)
    (labels : List ((ℚ × ℚ) × String)) (p1 p2 : ℕ × (ℚ × ℚ))
    (hidx : p1.1 ≠ p2.1)
    (hlab : labelOrDefault (get_point_label p1.2 labels (1/100)) ("P" ++ toString p1.1) ≠
            labelOrDefault (get_point_label p2.2 labels (1/100)) ("P" ++ toString p2.1)) :
    ∃ inner outer : DerivedArc,
      arcsForPair center radius clabel labels p1 p2 = [inner, outer] ∧
      inner.arc_type = "inner" ∧ outer.arc_type = "outer" ∧
      0 ≤ inner.end_angle - inner.start_angle ∧
      inner.end_angle - inner.start_angle ≤ 180 ∧
      outer.end_angle - outer.start_angle = 360 - (inner.end_angle - inner.start_angle) ∧
      (inner.end_angle - inner.start_angle) + (outer.end_angle - outer.start_angle) = 360 := by
  have hb1n := pyMod360_nonneg
    (atan2deg ((p1.2.2 : ℝ) - (center.2 : ℝ)) ((p1.2.1 : ℝ) - (center.1 : ℝ)))
  have hb1l := pyMod360_lt
    (atan2deg ((p1.2.2 : ℝ) - (center.2 : ℝ)) ((p1.2.1 : ℝ) - (center.1 : ℝ)))
  have hb2n := pyMod360_nonneg
    (atan2deg ((p2.2.2 : ℝ) - (center.2 : ℝ)) ((p2.2.1 : ℝ) - (center.1 : ℝ)))
  have hb2l := pyMod360_lt
    (atan2deg ((p2.2.2 : ℝ) - (center.2 : ℝ)) ((p2.2.1 : ℝ) - (center.1 : ℝ)))
  simp only [arcsForPair, if_neg hidx, if_neg hlab]
  split_ifs with hgt hspan hspan
  · exact ⟨_, _, rfl, rfl, rfl, by linarith, by linarith, by ring, by ring⟩
  · exact ⟨_, _, rfl, rfl, rfl, by linarith, by linarith, by ring, by ring⟩
  · exact ⟨_, _, rfl, rfl, rfl, by linarith, by linarith, by ring, by ring⟩
  · exact ⟨_, _, rfl, rfl, rfl, by linarith, by linarith, by ring, by ring⟩

/-- C7, witness: two distinctly labeled points on the unit circle. -/
theorem c7_witness :
    ∃ inner outer : DerivedArc,
      arcsForPair (0, 0) 1 none [((1, 0), "A"), ((0, 1), "B")] (0, (1, 0)) (1, (0, 1)) =
        [inner, outer] ∧
      inner.arc_type = "inner" ∧ outer.arc_type = "outer" ∧
      0 ≤ inner.end_angle - inner.start_angle ∧
      inner.end_angle - inner.start_angle ≤ 180 ∧
      outer.end_angle - outer.start_angle = 360 - (inner.end_angle - inner.start_angle) ∧
      (inner.end_angle - inner.start_angle) + (outer.end_angle - outer.start_angle) = 360 :=
  c7_derived_arc_pairs (0, 0) 1 none [((1, 0), "A"), ((0, 1), "B")] (0, (1, 0)) (1, (0, 1))
    (by decide) (by decide)

/-! ## C9: standalone-label matching -/

/--
Invariant of the best-candidate fold: a `some` result either is the
initial accumulator or is a list element within tolerance carrying its own
distance; the result never exceeds the initial accumulator's distance; and
the result is at most the distance of every in-tolerance list element.
-/
theorem bestFill_fold (lc : ℚ × ℚ) :
    ∀ (pts : List (ℚ × ℚ)) (acc : Option ((ℚ × ℚ) × ℝ)) (q : ℚ × ℚ) (e : ℝ),
      pts.foldl (bestFillStep lc) acc = some (q, e) →
      (acc = some (q, e) ∨ (q ∈ pts ∧ e = euclidDist q lc ∧ e < 1/2)) ∧
      (∀ p0 d0, acc = some (p0, d0) → e ≤ d0) ∧
      (∀ x ∈ pts, euclidDist x lc < 1/2 → e ≤ euclidDist x lc) := by
  intro pts
  induction pts with
  | nil =>
      intro acc q e h
      simp only [List.foldl_nil] at h
      refine ⟨Or.inl h, fun p0 d0 h0 => ?_, fun x hx => absurd hx (List.not_mem_nil x)⟩
      rw [h0] at h
      injection h with h2
      exact le_of_eq (congrArg Prod.snd h2).symm
  | cons p rest ih =>
      intro acc q e h
      rw [List.foldl_cons] at h
      obtain ⟨horigin, hacc, hrest⟩ := ih (bestFillStep lc acc p) q e h
      refine ⟨?_, ?_, ?_⟩
      · rcases horigin with hstep | hmem
        · match acc with
          | none =>
              simp only [bestFillStep] at hstep
              split_ifs at hstep with hd
              · injection hstep with h2
                obtain ⟨hq, he⟩ := Prod.mk.inj h2
                subst hq
                subst he
                exact Or.inr ⟨List.mem_cons_self _ _, rfl, hd⟩
          | some (b, bd) =>
              simp only [bestFillStep] at hstep
              split_ifs at hstep with hd
              · injection hstep with h2
                obtain ⟨hq, he⟩ := Prod.mk.inj h2
                subst hq
                subst he
                exact Or.inr ⟨List.mem_cons_self _ _, rfl, hd.2⟩
              · exact Or.inl hstep
        · exact Or.inr ⟨List.mem_cons_of_mem _ hmem.1, hmem.2.1, hmem.2.2⟩
      · intro p0 d0 h0
        subst h0
        simp only [bestFillStep] at hacc
        by_cases hd : euclidDist p lc < d0 ∧ euclidDist p lc < 1/2
        · have := hacc p (euclidDist p lc) (by rw [if_pos hd])
          exact le_trans this (le_of_lt hd.1)
        · exact hacc p0 d0 (by rw [if_neg hd])
      · intro x hx hdx
        rcases List.mem_cons.mp hx with rfl | hx'
        · match acc with
          | none =>
              simp only [bestFillStep] at hacc
              exact hacc x (euclidDist x lc) (by rw [if_pos hdx])
          | some (b, bd) =>
              simp only [bestFillStep] at hacc
              by_cases hd2 : euclidDist x lc < bd
              · exact hacc x (euclidDist x lc) (by rw [if_pos ⟨hd2, hdx⟩])
              · have hcond : ¬(euclidDist x lc < bd ∧ euclidDist x lc < 1/2) := by
                  rintro ⟨hc, -⟩
                  exact hd2 hc
                exact le_trans (hacc b bd (by rw [if_neg hcond])) (not_lt.mp hd2)
        · exact hrest x hx' hdx

/-- A successful best-candidate scan returns a pool point within 0.5 that
minimizes the distance among all in-tolerance pool points. -/
theorem bestFill_spec (lc : ℚ × ℚ) (pts : List (ℚ × ℚ)) (bp : ℚ × ℚ)
    (h : bestFill lc pts = some bp) :
    bp ∈ pts ∧ euclidDist bp lc < 1/2 ∧
      ∀ x ∈ pts, euclidDist x lc < 1/2 → euclidDist bp lc ≤ euclidDist x lc := by
  unfold bestFill at h
  obtain ⟨⟨q, e⟩, hfold, hqe⟩ := Option.map_eq_some'.mp h
  obtain ⟨horigin, -, hmin⟩ := bestFill_fold lc pts none q e hfold
  rcases horigin with h' | ⟨hmem, heq, hlt⟩
  · cases h'
  · simp only at hqe
    subst hqe
    exact ⟨hmem, heq ▸ hlt, fun x hx hdx => heq ▸ hmin x hx hdx⟩

/-- Unfolding equation of the matching loop when a best point is found. -/
theorem match_cons_some (lc : ℚ × ℚ) (lab : String) (rest : List ((ℚ × ℚ) × String))
    (pts : List (ℚ × ℚ)) (bp : ℚ × ℚ) (hbf : bestFill lc pts = some bp) :
    match_standalone_labels ((lc, lab) :: rest) pts =
      (bp, lab) :: match_standalone_labels rest (pts.erase bp) := by
  simp only [match_standalone_labels, hbf]

/-- Unfolding equation of the matching loop when no point qualifies. -/
theorem match_cons_none (lc : ℚ × ℚ) (lab : String) (rest : List ((ℚ × ℚ) × String))
    (pts : List (ℚ × ℚ)) (hbf : bestFill lc pts = none) :
    match_standalone_labels ((lc, lab) :: rest) pts = match_standalone_labels rest pts := by
  simp only [match_standalone_labels, hbf]

/-- Every assigned point comes from the fill-point pool. -/
theorem match_standalone_mem (ls : List ((ℚ × ℚ) × String)) :
    ∀ pts, ∀ pr ∈ match_standalone_labels ls pts, pr.1 ∈ pts := by
  induction ls with
  | nil =>
      intro pts pr hpr
      simp only [match_standalone_labels] at hpr
      cases hpr
  | cons l rest ih =>
      intro pts pr hpr
      obtain ⟨lc, lab⟩ := l
      cases hbf : bestFill lc pts with
      | none =>
          rw [match_cons_none lc lab rest pts hbf] at hpr
          exact ih pts pr hpr
      | some bp =>
          rw [match_cons_some lc lab rest pts bp hbf] at hpr
          rcases List.mem_cons.mp hpr with rfl | h'
          · exact (bestFill_spec lc pts bp hbf).1
          · exact List.mem_of_mem_erase (ih _ pr h')

/-- With a duplicate-free pool, no point is assigned twice. -/
theorem match_standalone_nodup (ls : List ((ℚ × ℚ) × String)) :
    ∀ pts : List (ℚ × ℚ), pts.Nodup →
      ((match_standalone_labels ls pts).map (·.1)).Nodup := by
  induction ls with
  | nil =>
      intro pts _
      simp [match_standalone_labels]
  | cons l rest ih =>
      intro pts hnd
      obtain ⟨lc, lab⟩ := l
      cases hbf : bestFill lc pts with
      | none =>
          rw [match_cons_none lc lab rest pts hbf]
          exact ih pts hnd
      | some bp =>
          rw [match_cons_some lc lab rest pts bp hbf, List.map_cons, List.nodup_cons]
          refine ⟨fun hmem => ?_, ih _ (hnd.erase bp)⟩
          obtain ⟨pr, hpr, hpr1⟩ := List.mem_map.mp hmem
          have := match_standalone_mem rest _ pr hpr
          rw [hpr1] at this
          exact absurd ((hnd.mem_erase_iff).mp this).1 (by simp)

/--
C9 (amended): the standalone-label matching is greedy in document order,
not in globally sorted distance order: each label in turn is matched to
the nearest still-unclaimed fill point strictly within 0.5 units (ties
keep the earlier point) and consumes it; every assigned point comes from
the pool, and no point is assigned twice when the pool has no duplicates.
-/
theorem c9_greedy_matching_amended (ls : List ((ℚ × ℚ) × String)) (pts : List (ℚ × ℚ)) :
    (∀ pr ∈ match_standalone_labels ls pts, pr.1 ∈ pts) ∧
    (pts.Nodup → ((match_standalone_labels ls pts).map (·.1)).Nodup) ∧
    (∀ lc lab rest, ls = (lc, lab) :: rest →
      (∀ bp, bestFill lc pts = some bp →
        bp ∈ pts ∧ euclidDist bp lc < 1/2 ∧
        (∀ x ∈ pts, euclidDist x lc < 1/2 → euclidDist bp lc ≤ euclidDist x lc) ∧
        match_standalone_labels ls pts =
          (bp, lab) :: match_standalone_labels rest (pts.erase bp)) ∧
      (bestFill lc pts = none →
        match_standalone_labels ls pts = match_standalone_labels rest pts)) := by
  refine ⟨match_standalone_mem ls pts, match_standalone_nodup ls pts, ?_⟩
  rintro lc lab rest rfl
  constructor
  · intro bp hbf
    obtain ⟨h1, h2, h3⟩ := bestFill_spec lc pts bp hbf
    exact ⟨h1, h2, h3, match_cons_some lc lab rest pts bp hbf⟩
  · intro hbf
    exact match_cons_none lc lab rest pts hbf

/-! Concrete evaluations for the C9 example: standalone labels `A` at
`(0.6, 0)` and `B` at `(0.9, 0)` (in document order), fill points `(0, 0)`
and `(1, 0)`. -/

theorem c9dist1 : euclidDist ((0 : ℚ), (0 : ℚ)) ((3/5 : ℚ), (0 : ℚ)) = 3/5 := by
  rw [euclidDist_horiz, show ((0 : ℚ) : ℝ) - ((3/5 : ℚ) : ℝ) = -(3/5) by push_cast; ring,
    abs_neg, abs_of_nonneg (by norm_num)]

theorem c9dist2 : euclidDist ((1 : ℚ), (0 : ℚ)) ((3/5 : ℚ), (0 : ℚ)) = 2/5 := by
  rw [euclidDist_horiz, show ((1 : ℚ) : ℝ) - ((3/5 : ℚ) : ℝ) = 2/5 by push_cast; ring,
    abs_of_nonneg (by norm_num)]

theorem c9dist3 : euclidDist ((0 : ℚ), (0 : ℚ)) ((9/10 : ℚ), (0 : ℚ)) = 9/10 := by
  rw [euclidDist_horiz, show ((0 : ℚ) : ℝ) - ((9/10 : ℚ) : ℝ) = -(9/10) by push_cast; ring,
    abs_neg, abs_of_nonneg (by norm_num)]

theorem c9dist4 : euclidDist ((1 : ℚ), (0 : ℚ)) ((9/10 : ℚ), (0 : ℚ)) = 1/10 := by
  rw [euclidDist_horiz, show ((1 : ℚ) : ℝ) - ((9/10 : ℚ) : ℝ) = 1/10 by push_cast; ring,
    abs_of_nonneg (by norm_num)]

/-- The first label (`A` at `(0.6, 0)`) claims the fill point `(1, 0)`. -/
theorem c9bf1 : bestFill ((3/5 : ℚ), (0 : ℚ)) [((0 : ℚ), (0 : ℚ)), ((1 : ℚ), (0 : ℚ))] =
    some ((1 : ℚ), (0 : ℚ)) := by
  unfold bestFill
  rw [List.foldl_cons, List.foldl_cons, List.foldl_nil]
  have s1 : bestFillStep ((3/5 : ℚ), (0 : ℚ)) none ((0 : ℚ), (0 : ℚ)) = none := by
    simp only [bestFillStep, c9dist1]
    rw [if_neg (by norm_num)]
  rw [s1]
  have s2 : bestFillStep ((3/5 : ℚ), (0 : ℚ)) none ((1 : ℚ), (0 : ℚ)) =
      some (((1 : ℚ), (0 : ℚ)), 2/5) := by
    simp only [bestFillStep, c9dist2]
    rw [if_pos (by norm_num)]
  rw [s2]
  rfl

/-- The second label (`B` at `(0.9, 0)`) finds no remaining point in range. -/
theorem c9bf2 : bestFill ((9/10 : ℚ), (0 : ℚ)) [((0 : ℚ), (0 : ℚ))] = none := by
  unfold bestFill
  rw [List.foldl_cons, List.foldl_nil]
  have s1 : bestFillStep ((9/10 : ℚ), (0 : ℚ)) none ((0 : ℚ), (0 : ℚ)) = none := by
    simp only [bestFillStep, c9dist3]
    rw [if_neg (by norm_num)]
  rw [s1]
  rfl

/-- The code's document-order matching on the example: `B` never gets a
point because `A`, processed first, claimed `(1, 0)`. -/
theorem c9code :
    match_standalone_labels [(((3/5 : ℚ), (0 : ℚ)), "A"), (((9/10 : ℚ), (0 : ℚ)), "B")]
        [((0 : ℚ), (0 : ℚ)), ((1 : ℚ), (0 : ℚ))] = [(((1 : ℚ), (0 : ℚ)), "A")] := by
  rw [match_cons_some _ _ _ _ _ c9bf1,
    show ([((0 : ℚ), (0 : ℚ)), ((1 : ℚ), (0 : ℚ))].erase ((1 : ℚ), (0 : ℚ))) =
      [((0 : ℚ), (0 : ℚ))] by decide,
    match_cons_none _ _ _ _ c9bf2]
  rfl

/-- Unfolding equation of the spec-side procedure on a found minimum. -/
theorem spec_sorted_match_succ (fuel : ℕ) (cands : List LabelCand) (c : LabelCand)
    (h : specArgmin cands = some c) :
    spec_sorted_match (fuel + 1) cands =
      (c.2, c.1.2) :: spec_sorted_match fuel
        (cands.filter fun d => !(d.1 == c.1) && !(d.2 == c.2)) := by
  simp only [spec_sorted_match, h]

/-- Unfolding equation of the spec-side procedure with no candidates. -/
theorem spec_sorted_match_stop (fuel : ℕ) (cands : List LabelCand)
    (h : specArgmin cands = none) : spec_sorted_match (fuel + 1) cands = [] := by
  simp only [spec_sorted_match, h]

/-- The candidate pairs of the example within the 0.5 tolerance. -/
theorem c9cands :
    specCandidates [(((3/5 : ℚ), (0 : ℚ)), "A"), (((9/10 : ℚ), (0 : ℚ)), "B")]
        [((0 : ℚ), (0 : ℚ)), ((1 : ℚ), (0 : ℚ))] =
      [((((3/5 : ℚ), (0 : ℚ)), "A"), ((1 : ℚ), (0 : ℚ))),
       ((((9/10 : ℚ), (0 : ℚ)), "B"), ((1 : ℚ), (0 : ℚ)))] := by
  unfold specCandidates
  simp only [List.flatMap_cons, List.flatMap_nil, List.filterMap_cons, List.filterMap_nil,
    c9dist1, c9dist2, c9dist3, c9dist4]
  rw [if_neg (by norm_num : ¬((3/5 : ℝ) < 1/2)), if_pos (by norm_num : (2/5 : ℝ) < 1/2),
    if_neg (by norm_num : ¬((9/10 : ℝ) < 1/2)), if_pos (by norm_num : (1/10 : ℝ) < 1/2)]
  rfl

/-- The globally nearest candidate pair is `B`-`(1,0)` at distance 0.1. -/
theorem c9argmin :
    specArgmin [((((3/5 : ℚ), (0 : ℚ)), "A"), ((1 : ℚ), (0 : ℚ))),
        ((((9/10 : ℚ), (0 : ℚ)), "B"), ((1 : ℚ), (0 : ℚ)))] =
      some ((((9/10 : ℚ), (0 : ℚ)), "B"), ((1 : ℚ), (0 : ℚ))) := by
  simp only [specArgmin, c9dist2, c9dist4]
  rw [if_pos (by norm_num : (1/10 : ℝ) < 2/5)]

/-- The spec-described sorted-order procedure on the example assigns `B`
to `(1, 0)` first, leaving `A` unmatched. -/
theorem c9spec :
    spec_greedy_labels [(((3/5 : ℚ), (0 : ℚ)), "A"), (((9/10 : ℚ), (0 : ℚ)), "B")]
        [((0 : ℚ), (0 : ℚ)), ((1 : ℚ), (0 : ℚ))] = [(((1 : ℚ), (0 : ℚ)), "B")] := by
  unfold spec_greedy_labels
  rw [c9cands]
  rw [show ([((((3/5 : ℚ), (0 : ℚ)), "A"), ((1 : ℚ), (0 : ℚ))),
      ((((9/10 : ℚ), (0 : ℚ)), "B"), ((1 : ℚ), (0 : ℚ)))] : List LabelCand).length = 1 + 1
    from rfl]
  rw [spec_sorted_match_succ 1 _ _ c9argmin]
  rw [show ([((((3/5 : ℚ), (0 : ℚ)), "A"), ((1 : ℚ), (0 : ℚ))),
        ((((9/10 : ℚ), (0 : ℚ)), "B"), ((1 : ℚ), (0 : ℚ)))].filter
      (fun d => !(d.1 == ((((9/10 : ℚ), (0 : ℚ)), "B") : (ℚ × ℚ) × String)) &&
        !(d.2 == (((1 : ℚ), (0 : ℚ)) : ℚ × ℚ)))) = [] by decide]
  rw [show (1 : ℕ) = 0 + 1 from rfl, spec_sorted_match_stop 0 [] rfl]

/--
C9, counterexample: the claim describes a globally sorted nearest-first
matching, but the code processes standalone labels in document order.
With labels `A` at `(0.6, 0)` then `B` at `(0.9, 0)` and fill points
`(0, 0)`, `(1, 0)`: the code lets `A` claim `(1, 0)` (distance 0.4) and
leaves `B` unmatched, while the claim's procedure assigns the globally
nearest pair `B`-`(1, 0)` (distance 0.1) first.
-/
theorem c9_counterexample :
    match_standalone_labels [(((3/5 : ℚ), (0 : ℚ)), "A"), (((9/10 : ℚ), (0 : ℚ)), "B")]
        [((0 : ℚ), (0 : ℚ)), ((1 : ℚ), (0 : ℚ))] = [(((1 : ℚ), (0 : ℚ)), "A")] ∧
    spec_greedy_labels [(((3/5 : ℚ), (0 : ℚ)), "A"), (((9/10 : ℚ), (0 : ℚ)), "B")]
        [((0 : ℚ), (0 : ℚ)), ((1 : ℚ), (0 : ℚ))] = [(((1 : ℚ), (0 : ℚ)), "B")] ∧
    ([(((1 : ℚ), (0 : ℚ)), "A")] : List ((ℚ × ℚ) × String)) ≠ [(((1 : ℚ), (0 : ℚ)), "B")] :=
  ⟨c9code, c9spec, by decide⟩

/-- C9, witness for the amended theorem on the example configuration. -/
theorem c9_witness :
    ((match_standalone_labels [(((3/5 : ℚ), (0 : ℚ)), "A"), (((9/10 : ℚ), (0 : ℚ)), "B")]
        [((0 : ℚ), (0 : ℚ)), ((1 : ℚ), (0 : ℚ))]).map (·.1)).Nodup ∧
    match_standalone_labels [(((3/5 : ℚ), (0 : ℚ)), "A"), (((9/10 : ℚ), (0 : ℚ)), "B")]
        [((0 : ℚ), (0 : ℚ)), ((1 : ℚ), (0 : ℚ))] =
      (((1 : ℚ), (0 : ℚ)), "A") ::
        match_standalone_labels [(((9/10 : ℚ), (0 : ℚ)), "B")]
          ([((0 : ℚ), (0 : ℚ)), ((1 : ℚ), (0 : ℚ))].erase ((1 : ℚ), (0 : ℚ))) := by
  refine ⟨(c9_greedy_matching_amended _ _).2.1 (by decide), ?_⟩
  exact (((c9_greedy_matching_amended
    [(((3/5 : ℚ), (0 : ℚ)), "A"), (((9/10 : ℚ), (0 : ℚ)), "B")]
    [((0 : ℚ), (0 : ℚ)), ((1 : ℚ), (0 : ℚ))]).2.2 _ "A" _ rfl).1 _ c9bf1).2.2.2

end TikzHelper
